import Mathlib

/-!
# Task-Management backend: a shallow embedding of `src/backend/server.js`

The Express handlers of `server.js` are embedded as pure functions
`Env → Run → Store → body → Store × Response`.

* `Store` is the PostgreSQL schema `taskmgmt_schema` (two tables, each a list of
  rows in storage order, plus the two id sequences).
* `Env` holds what the process is configured with: `JWT_SECRET` and the
  behaviour of `bcrypt.hash` / `bcrypt.compare` on strings.
* `Run` holds what varies per request: the clock and, for each `pool.query`
  call of the handler (numbered from 0), whether that call raises.
* JSON request fields are `Val`s; `truthy` is JavaScript truthiness and
  `prepareValue` is the text encoding the `pg` driver gives a query parameter.
  Objects and arrays as field values are not modelled.
-/

namespace TaskMgmt

/-! ## Values -/

/-- A JSON value read from `req.body` (`undefined` for a field that is absent). -/
inductive Val where
  | undefined
  | null
  | bool (b : Bool)
  | num (n : Int)
  | str (s : String)
  deriving DecidableEq, Repr

/-- JavaScript truthiness, as tested by `!name`, `!email`, `!password`. -/
def truthy : Val → Bool
  | .undefined => false
  | .null => false
  | .bool b => b
  | .num n => n != 0
  | .str s => s != ""

/-- A nullable text column / an encoded query parameter (`none` is SQL NULL). -/
abbrev Sql := Option String

/-- The encoding `pg` applies to a query parameter: `undefined` and `null`
become NULL, everything else its `toString()`. -/
def prepareValue : Val → Sql
  | .undefined => none
  | .null => none
  | .bool b => some (if b then "true" else "false")
  | .num n => some (toString n)
  | .str s => some s

/-- SQL `column = $k`: true only when both sides are non-NULL and equal. -/
def sqlEq (col : Sql) (param : Sql) : Bool :=
  match col, param with
  | some a, some b => a == b
  | _, _ => false

/-! ## The store -/

/-- A row of `taskmgmt_schema.signupusers (id, name, email, password, created_at)`. -/
structure UserRow where
  id : Nat
  name : Sql
  email : Sql
  password : Sql
  created_at : Nat
  deriving DecidableEq, Repr

/-- A row of `taskmgmt_schema.taskmanagement
(id, task_title, category, details, priority_level, due_date, status, created_at)`. -/
structure TaskRow where
  id : Nat
  task_title : Sql
  category : Sql
  details : Sql
  priority_level : Sql
  due_date : Sql
  status : Sql
  created_at : Nat
  deriving DecidableEq, Repr

/-- Modelled from the spec: the table definitions (DDL) of `taskmgmt_schema` are
not in the repository. Each table is the list of its rows in storage order;
`id` is system-assigned from a per-table sequence and `created_at` is the
creation timestamp the database fills in. -/
structure Store where
  signupusers : List UserRow
  taskmanagement : List TaskRow
  userSeq : Nat
  taskSeq : Nat
  deriving DecidableEq, Repr

/-- The store before any request: both tables empty, sequences at 1. -/
def Store.empty : Store :=
  { signupusers := [], taskmanagement := [], userSeq := 1, taskSeq := 1 }

/-! ## Environment -/

/-- A signed JWT: the payload `id` (absent when the signed `id` is `undefined`),
issued-at and expiry in seconds, and the secret its signature verifies under. -/
structure Token where
  id : Option Nat
  iat : Nat
  exp : Nat
  key : String
  deriving DecidableEq, Repr

/-- Process configuration: `process.env.JWT_SECRET` and the values
`bcrypt.hash(s, rounds)` / `bcrypt.compare(s, hash)` resolve to on strings. -/
structure Env where
  jwtSecret : Option String
  hash : String → Nat → String
  compare : String → String → Bool

/-- Per-request conditions: the clock (seconds) and whether the `k`-th
`pool.query` call of the handler raises. -/
structure Run where
  now : Nat
  dbFails : Nat → Bool

/-- The outcome of the `k`-th `pool.query` call: it raises, or yields `result`. -/
def query {α : Type} (run : Run) (k : Nat) (result : α) : Except Unit α :=
  if run.dbFails k then .error () else .ok result

/-- Library call `bcrypt.hash(s, rounds)`: rejects unless `s` is a string. -/
def bcryptHash (env : Env) (s : Val) (rounds : Nat) : Except Unit String :=
  match s with
  | .str p => .ok (env.hash p rounds)
  | _ => .error ()

/-- Library call `bcrypt.compare(s, hash)`: rejects unless both arguments are strings. -/
def bcryptCompare (env : Env) (s : Val) (hash : Sql) : Except Unit Bool :=
  match s, hash with
  | .str p, some h => .ok (env.compare p h)
  | _, _ => .error ()

/-- Library call `jwt.sign({ id }, secret, { expiresIn: '1h' })` at time `now`: throws when the
secret is missing or empty, else a token expiring 3600 seconds after issue. -/
def jwtSign (id : Option Nat) (secret : Option String) (now : Nat) : Except Unit Token :=
  match secret with
  | none => .error ()
  | some k => if k = "" then .error () else .ok { id := id, iat := now, exp := now + 3600, key := k }

/-- Helper `generateToken(id)` of `server.js`. -/
def generateToken (env : Env) (run : Run) (id : Option Nat) : Except Unit Token :=
  jwtSign id env.jwtSecret run.now

/-! ## Requests and responses -/

/-- Body of `POST /api/signup`. -/
structure SignupBody where
  name : Val
  email : Val
  password : Val
  deriving DecidableEq, Repr

/-- Body of `POST /api/login`. -/
structure LoginBody where
  email : Val
  password : Val
  deriving DecidableEq, Repr

/-- Body of `POST /api/taskmanagement`. The handler destructures only
`name, category, description, priority, deadline`; `status` stands for a
`status` field a caller may send along. -/
structure TaskBody where
  name : Val
  category : Val
  description : Val
  priority : Val
  deadline : Val
  status : Val
  deriving DecidableEq, Repr

/-- Body of `PUT /api/updateTaskmanagement`. -/
structure UpdateBody where
  taskname : Val
  category : Val
  description : Val
  priority : Val
  deadline : Val
  status : Val
  deriving DecidableEq, Repr

/-- The `counts` object of `GET /api/getCounts`: each field is the number the
aggregate computes (the driver transmits it in decimal). -/
structure Counts where
  total_count : Nat
  pending_count : Nat
  completed_count : Nat
  deriving DecidableEq, Repr

/-- An HTTP response: status code and the fields of the JSON body
(`none` for a field the body does not carry). -/
structure Response where
  status : Nat
  message : String
  token : Option Token := none
  name : Option Sql := none
  tasks : Option (List TaskRow) := none
  updatedTask : Option TaskRow := none
  deletedTask : Option TaskRow := none
  counts : Option Counts := none
  deriving DecidableEq, Repr

/-! ## Queries -/

/-- Statement `SELECT * FROM signupusers WHERE email = $1`. -/
def selectUsersByEmail (st : Store) (email : Val) : List UserRow :=
  st.signupusers.filter (fun u => sqlEq u.email (prepareValue email))

/-- Statement `INSERT INTO signupusers (name, email, password) VALUES ($1, $2, $3) RETURNING id`. -/
def insertUser (run : Run) (st : Store) (name email : Val) (hashed : String) : Store × Nat :=
  ({ st with
      signupusers := st.signupusers ++
        [{ id := st.userSeq, name := prepareValue name, email := prepareValue email,
           password := some hashed, created_at := run.now }],
      userSeq := st.userSeq + 1 },
   st.userSeq)

/-- Statement `INSERT INTO taskmanagement (task_title, category, details, priority_level,
due_date, status) VALUES ($1, ..., $6)`. -/
def insertTask (run : Run) (st : Store) (v1 v2 v3 v4 v5 v6 : Sql) : Store :=
  { st with
      taskmanagement := st.taskmanagement ++
        [{ id := st.taskSeq, task_title := v1, category := v2, details := v3,
           priority_level := v4, due_date := v5, status := v6, created_at := run.now }],
      taskSeq := st.taskSeq + 1 }

/-- Statement `SELECT * FROM taskmanagement WHERE task_title = $1`. -/
def selectTasksByTitle (st : Store) (taskname : Val) : List TaskRow :=
  st.taskmanagement.filter (fun t => sqlEq t.task_title (prepareValue taskname))

/-- The row an `UPDATE ... SET category = $1, details = $2, priority_level = $3,
due_date = $4, status = $5` leaves in place of `t`. -/
def setColumns (t : TaskRow) (v1 v2 v3 v4 v5 : Sql) : TaskRow :=
  { t with category := v1, details := v2, priority_level := v3, due_date := v4, status := v5 }

/-- Statement `UPDATE taskmanagement SET ... WHERE task_title = $6 RETURNING *`:
the new store and the returned (updated) rows. -/
def updateTasksByTitle (st : Store) (v1 v2 v3 v4 v5 : Sql) (title : Sql) :
    Store × List TaskRow :=
  ({ st with
      taskmanagement := st.taskmanagement.map
        (fun t => if sqlEq t.task_title title then setColumns t v1 v2 v3 v4 v5 else t) },
   (st.taskmanagement.filter (fun t => sqlEq t.task_title title)).map
     (fun t => setColumns t v1 v2 v3 v4 v5))

/-- Statement `DELETE FROM taskmanagement WHERE id = $1 RETURNING *`:
the new store and the returned (deleted) rows. -/
def deleteTaskById (st : Store) (taskId : Nat) : Store × List TaskRow :=
  ({ st with taskmanagement := st.taskmanagement.filter (fun t => t.id != taskId) },
   st.taskmanagement.filter (fun t => t.id == taskId))

/-- Statement `SELECT COUNT(*), COUNT(CASE WHEN status = 'Pending' THEN 1 END),
COUNT(CASE WHEN status = 'Completed' THEN 1 END) FROM taskmanagement`. -/
def selectCounts (st : Store) : Counts :=
  { total_count := st.taskmanagement.length,
    pending_count := (st.taskmanagement.filter (fun t => sqlEq t.status (some "Pending"))).length,
    completed_count :=
      (st.taskmanagement.filter (fun t => sqlEq t.status (some "Completed"))).length }

/-! ## Handlers -/

/-- Handler `app.post('/api/signup', ...)`. -/
def signup (env : Env) (run : Run) (st : Store) (body : SignupBody) : Store × Response :=
  if !truthy body.name || !truthy body.email || !truthy body.password then
    (st, { status := 400, message := "Please fill in all fields." })
  else
    match query run 0 (selectUsersByEmail st body.email) with
    | .error _ => (st, { status := 500, message := "Internal server error." })
    | .ok rows =>
      if rows.length > 0 then
        (st, { status := 400, message := "Email is already in use." })
      else
        match bcryptHash env body.password 10 with
        | .error _ => (st, { status := 500, message := "Internal server error." })
        | .ok hashedPassword =>
          match query run 1 (insertUser run st body.name body.email hashedPassword) with
          | .error _ => (st, { status := 500, message := "Internal server error." })
          | .ok (st1, id) =>
            match generateToken env run (some id) with
            | .error _ => (st1, { status := 500, message := "Internal server error." })
            | .ok token =>
              (st1, { status := 201, message := "Sign up successful!", token := some token })

/-- Handler `app.post('/api/login', ...)`. -/
def login (env : Env) (run : Run) (st : Store) (body : LoginBody) : Store × Response :=
  if !truthy body.email || !truthy body.password then
    (st, { status := 400, message := "Please provide email and password." })
  else
    match query run 0 (selectUsersByEmail st body.email) with
    | .error _ => (st, { status := 500, message := "Internal server error." })
    | .ok rows =>
      match rows with
      | [] => (st, { status := 401, message := "Invalid email or password." })
      | user :: _ =>
        match bcryptCompare env body.password user.password with
        | .error _ => (st, { status := 500, message := "Internal server error." })
        | .ok isMatch =>
          if !isMatch then
            (st, { status := 401, message := "Invalid email or password." })
          else
            match generateToken env run (some user.id) with
            | .error _ => (st, { status := 500, message := "Internal server error." })
            | .ok token =>
              (st, { status := 200, message := "Login successful!", token := some token,
                     name := some user.name })

/-- Handler `app.post('/api/taskmanagement', ...)`. `req.user` is never set, so the token
is `generateToken(undefined)`; `status` is the constant `'Pending'`. -/
def taskmanagement (env : Env) (run : Run) (st : Store) (body : TaskBody) : Store × Response :=
  match generateToken env run none with
  | .error _ => (st, { status := 500, message := "An error occurred while adding the task." })
  | .ok token =>
    match query run 0 (insertTask run st (prepareValue body.name) (prepareValue body.category)
        (prepareValue body.description) (prepareValue body.priority)
        (prepareValue body.deadline) (some "Pending")) with
    | .error _ => (st, { status := 500, message := "An error occurred while adding the task." })
    | .ok st1 => (st1, { status := 200, message := "Task added successfully.", token := some token })

/-- Handler `app.get('/api/getTaskmanagement', ...)`. -/
def getTaskmanagement (env : Env) (run : Run) (st : Store) : Store × Response :=
  match generateToken env run none with
  | .error _ => (st, { status := 500, message := "An error occurred while fetching the tasks." })
  | .ok token =>
    match query run 0 st.taskmanagement with
    | .error _ => (st, { status := 500, message := "An error occurred while fetching the tasks." })
    | .ok tasks =>
      (st, { status := 200, message := "Tasks fetched successfully.", token := some token,
             tasks := some tasks })

/-- Handler `app.put('/api/updateTaskmanagement', ...)`. -/
def updateTaskmanagement (run : Run) (st : Store) (body : UpdateBody) : Store × Response :=
  match query run 0 (selectTasksByTitle st body.taskname) with
  | .error _ => (st, { status := 500, message := "An error occurred while updating the task." })
  | .ok rows =>
    if rows.length = 0 then
      (st, { status := 404, message := "Task not found" })
    else
      match query run 1 (updateTasksByTitle st (prepareValue body.category)
          (prepareValue body.description) (prepareValue body.priority)
          (prepareValue body.deadline) (prepareValue body.status)
          (prepareValue body.taskname)) with
      | .error _ => (st, { status := 500, message := "An error occurred while updating the task." })
      | .ok (st1, updated) =>
        (st1, { status := 200, message := "Task updated successfully.",
                updatedTask := updated.head? })

/-- Handler `app.delete('/api/deleteTaskmanagement/:taskId', ...)`. The path segment is
taken as the identifier it denotes. -/
def deleteTaskmanagement (run : Run) (st : Store) (taskId : Nat) : Store × Response :=
  match query run 0 (deleteTaskById st taskId) with
  | .error _ => (st, { status := 500, message := "An error occurred while deleting the task." })
  | .ok (st1, rows) =>
    match rows with
    | [] => (st1, { status := 404, message := "Task not found" })
    | row :: _ =>
      (st1, { status := 200, message := "Task deleted successfully.", deletedTask := some row })

/-- Handler `app.get('/api/getCounts', ...)`. -/
def getCounts (env : Env) (run : Run) (st : Store) : Store × Response :=
  match generateToken env run none with
  | .error _ =>
    (st, { status := 500, message := "An error occurred while fetching the task counts." })
  | .ok token =>
    match query run 0 (selectCounts st) with
    | .error _ =>
      (st, { status := 500, message := "An error occurred while fetching the task counts." })
    | .ok counts =>
      (st, { status := 200, message := "Task counts fetched successfully.", token := some token,
             counts := some counts })

/-! ## The application -/

/-- The operation a request addresses, with its body or path parameter. -/
inductive Op where
  | signup (body : SignupBody)
  | login (body : LoginBody)
  | taskmanagement (body : TaskBody)
  | getTaskmanagement
  | updateTaskmanagement (body : UpdateBody)
  | deleteTaskmanagement (taskId : Nat)
  | getCounts
  deriving DecidableEq, Repr

/-- A request: the `Authorization` header, if any, and the operation.
No route of `server.js` installs `authenticateToken`, so the header is not read. -/
structure Request where
  authorization : Option String
  op : Op
  deriving DecidableEq, Repr

/-- Route dispatch of the Express `app`. -/
def handle (env : Env) (run : Run) (st : Store) (req : Request) : Store × Response :=
  match req.op with
  | .signup body => signup env run st body
  | .login body => login env run st body
  | .taskmanagement body => taskmanagement env run st body
  | .getTaskmanagement => getTaskmanagement env run st
  | .updateTaskmanagement body => updateTaskmanagement run st body
  | .deleteTaskmanagement taskId => deleteTaskmanagement run st taskId
  | .getCounts => getCounts env run st

/-- One step of a sequential execution: the process configuration, the
per-request conditions and the request. -/
structure Step where
  env : Env
  run : Run
  req : Request

/-- The store after handling the requests of `steps` one after another. -/
def exec (st : Store) (steps : List Step) : Store :=
  steps.foldl (fun s step => (handle step.env step.run s step.req).1) st

/-! ## The token gate -/

/-- The payload `jwt.verify` hands to its callback: what `jwt.sign` signed
(`id`, unless it was `undefined`) with `iat` and `exp`. -/
structure Payload where
  id : Option Nat
  iat : Nat
  exp : Nat
  deriving DecidableEq, Repr

/-- The payload carried by a token. -/
def Token.payload (t : Token) : Payload :=
  { id := t.id, iat := t.iat, exp := t.exp }

/-- The compact serialization of the `jsonwebtoken` library (an external
dependency): the string `jwt.sign` returns for a token, and the token a string
parses to, if it is well-formed. -/
structure Codec where
  encode : Token → String
  decode : String → Option Token

/-- Library call `jwt.verify(token, secret, callback)` at time `now`: the error
cases are a missing or empty secret, a malformed string, a signature that does
not verify under the secret, and `now >= exp`; otherwise the payload. -/
def jwtVerify (codec : Codec) (token : String) (secret : Option String) (now : Nat) :
    Except Unit Payload :=
  match secret with
  | none => .error ()
  | some k =>
    if k = "" then .error ()
    else
      match codec.decode token with
      | none => .error ()
      | some t =>
        if t.key ≠ k then .error ()
        else if now ≥ t.exp then .error ()
        else .ok t.payload

/-- JavaScript `s.split(' ')` on the characters of `s`. -/
def splitOnSpace : List Char → List (List Char)
  | [] => [[]]
  | c :: cs =>
    if c = ' ' then [] :: splitOnSpace cs
    else
      match splitOnSpace cs with
      | [] => [[c]]
      | w :: ws => (c :: w) :: ws

/-- The expression `authHeader && authHeader.split(' ')[1]`: `none` is
`undefined` (no header, or no second segment), an empty header yields itself. -/
def bearerSegment (authHeader : Option String) : Option String :=
  match authHeader with
  | none => none
  | some h => if h = "" then some "" else ((splitOnSpace h.data)[1]?).map String.mk

/-- What `authenticateToken` does with a request: send a bare status, or set
`req.user` and call `next()`. -/
inductive Gate where
  | sendStatus (code : Nat)
  | next (user : Payload)
  deriving DecidableEq, Repr

/-- Middleware `authenticateToken(req, res, next)` of `server.js`, on the
`Authorization` header of the request at time `now`. -/
def authenticateToken (codec : Codec) (env : Env) (now : Nat) (authHeader : Option String) :
    Gate :=
  match bearerSegment authHeader with
  | none => .sendStatus 401
  | some token =>
    if token = "" then .sendStatus 401
    else
      match jwtVerify codec token env.jwtSecret now with
      | .error _ => .sendStatus 403
      | .ok user => .next user

/-! ## Frontend: `TaskManagement.js` and `SignUps.js` -/

/-- A task object held in the `tasks` state of the task page: the eight fields
of a fetched row, and the keys `taskname`, `description`, `priority`,
`deadline` that the spread in `handleSave` adds (`none` while absent). -/
structure ClientTask where
  id : Nat
  task_title : Sql
  category : Sql
  details : Sql
  priority_level : Sql
  due_date : Sql
  status : Sql
  created_at : Nat
  taskname : Option Sql := none
  description : Option Sql := none
  priority : Option Sql := none
  deadline : Option Sql := none
  deriving DecidableEq, Repr

/-- The object the client receives for a row of `response.data.tasks`. -/
def ClientTask.ofRow (t : TaskRow) : ClientTask :=
  { id := t.id, task_title := t.task_title, category := t.category, details := t.details,
    priority_level := t.priority_level, due_date := t.due_date, status := t.status,
    created_at := t.created_at }

/-- Whether the characters `s` begin with the characters `sub`. -/
def startsWith : List Char → List Char → Bool
  | _, [] => true
  | [], _ :: _ => false
  | c :: cs, d :: ds => c == d && startsWith cs ds

/-- JavaScript `s.includes(sub)` on the characters of the two strings. -/
def includes : List Char → List Char → Bool
  | [], sub => startsWith [] sub
  | c :: cs, sub => startsWith (c :: cs) sub || includes cs sub

/-- The predicate of `filteredTasks` on one task:
`task.task_title.toLowerCase().includes(search.toLowerCase()) ||
 task.category.toLowerCase().includes(search.toLowerCase())`.
Calling `toLowerCase` on `null` raises a TypeError; the right operand of `||`
is evaluated only when the left one is false. `toLowerCase` is the built-in. -/
def matchesSearch (toLowerCase : String → String) (task : ClientTask) (search : String) :
    Except Unit Bool :=
  match task.task_title with
  | none => .error ()
  | some title =>
    if includes (toLowerCase title).data (toLowerCase search).data then .ok true
    else
      match task.category with
      | none => .error ()
      | some category => .ok (includes (toLowerCase category).data (toLowerCase search).data)

/-- The call `tasks.filter(predicate)`: the predicate is applied to the tasks in
order, and the first TypeError aborts the whole computation. -/
def filterTasks (toLowerCase : String → String) (search : String) :
    List ClientTask → Except Unit (List ClientTask)
  | [] => .ok []
  | task :: rest =>
    match matchesSearch toLowerCase task search with
    | .error _ => .error ()
    | .ok keep =>
      match filterTasks toLowerCase search rest with
      | .error _ => .error ()
      | .ok kept => .ok (if keep then task :: kept else kept)

/-- The `useState` cells of the `TaskManagement` component that the claims
involve. The form cells hold a string or, after `handleEdit` on a task with a
NULL column, `null`. -/
structure TaskPage where
  search : String
  priorityFilter : String
  tasks : List ClientTask
  editingTask : Option ClientTask
  taskTitle : Sql
  category : Sql
  details : Sql
  priority : Sql
  dueDateTime : Sql
  status : Sql
  deriving DecidableEq, Repr

/-- The constant `filteredTasks` of the component, computed on every render from
`tasks` and `search` (`priorityFilter` does not occur in it). -/
def filteredTasks (toLowerCase : String → String) (page : TaskPage) :
    Except Unit (List ClientTask) :=
  filterTasks toLowerCase page.search page.tasks

/-- The JSON value of a form cell. -/
def jsonOfCell : Sql → Val
  | none => .null
  | some s => .str s

/-- The object `updatedTaskData` built by `handleSave`. -/
def updatedTaskData (page : TaskPage) : UpdateBody :=
  { taskname := jsonOfCell page.taskTitle, category := jsonOfCell page.category,
    description := jsonOfCell page.details, priority := jsonOfCell page.priority,
    deadline := jsonOfCell page.dueDateTime, status := jsonOfCell page.status }

/-- The object `{ ...task, ...updatedTaskData }`: the keys of `updatedTaskData`
(`taskname, category, description, priority, deadline, status`) are set, every
other key of `task` is kept. -/
def spreadUpdate (task : ClientTask) (page : TaskPage) : ClientTask :=
  { task with
      taskname := some page.taskTitle, category := page.category,
      description := some page.details, priority := some page.priority,
      deadline := some page.dueDateTime, status := page.status }

/-- What an event handler of the frontend does besides changing state. -/
inductive Effect where
  | preventDefault
  | alert (msg : String)
  | postSignUp (name email password confirmPassword : String)
  | putUpdate (body : UpdateBody)
  | navigate (path : String)
  deriving DecidableEq, Repr

/-- Whether axios resolves a response (its default `validateStatus`). -/
def axiosResolves (status : Nat) : Bool :=
  decide (200 ≤ status) && decide (status < 300)

/-- Handler `handleEdit(task)` of the task page. -/
def handleEdit (page : TaskPage) (task : ClientTask) : TaskPage :=
  { page with
      editingTask := some task, taskTitle := task.task_title, category := task.category,
      details := task.details, priority := task.priority_level,
      dueDateTime := task.due_date, status := task.status }

/-- Handler `handleSave(taskId)` of the task page; `send` is the PUT to
`/api/updateTaskmanagement` (`none` when no response arrives). -/
def handleSave (page : TaskPage) (taskId : Nat) (send : UpdateBody → Option Response) :
    TaskPage × List Effect :=
  match send (updatedTaskData page) with
  | none => (page, [.putUpdate (updatedTaskData page), .alert "Failed to update task"])
  | some response =>
    if axiosResolves response.status then
      ({ page with
          tasks := page.tasks.map
            (fun task => if task.id = taskId then spreadUpdate task page else task),
          editingTask := none },
       [.putUpdate (updatedTaskData page), .alert "Task successfully updated!"])
    else (page, [.putUpdate (updatedTaskData page), .alert "Failed to update task"])

/-- Handler `fetchTasks()` of the task page on the response to
`GET /api/getTaskmanagement` (a resolved response of the server carries `tasks`). -/
def fetchTasks (page : TaskPage) (response : Option Response) : TaskPage × List Effect :=
  match response with
  | none => (page, [.alert "Failed to fetch tasks"])
  | some r =>
    if axiosResolves r.status then
      match r.tasks with
      | some rows => ({ page with tasks := rows.map ClientTask.ofRow }, [])
      | none => (page, [])
    else (page, [.alert "Failed to fetch tasks"])

/-- The `useState` cells of the `SignUpPage` component. -/
structure SignUpForm where
  name : String
  email : String
  password : String
  confirmPassword : String
  deriving DecidableEq, Repr

/-- Handler `handleSignUp(e)` of the signup page; `send` is the POST to
`/api/signup` (`none` when no response arrives). -/
def handleSignUp (form : SignUpForm) (send : SignupBody → Option Response) : List Effect :=
  .preventDefault ::
    (if form.password ≠ form.confirmPassword then [.alert "Passwords do not match."]
     else
      .postSignUp form.name form.email form.password form.confirmPassword ::
        (match send { name := .str form.name, email := .str form.email,
                      password := .str form.password } with
         | none => [.alert "An error occurred during sign up."]
         | some response =>
           if axiosResolves response.status then
             if response.status = 201 then [.alert "Sign up successful!", .navigate "/"]
             else [.alert response.message]
           else [.alert "An error occurred during sign up."]))

/-- The token field of a create, list or counts response as a function of the
configuration and the request conditions alone: `generateToken(undefined)`,
sent only when the route's query does not raise. -/
def taskToken (env : Env) (run : Run) : Option Token :=
  match generateToken env run none with
  | .error _ => none
  | .ok token => if run.dbFails 0 then none else some token

/-! ## Sample configuration and stores -/

/-- A configuration with a secret and a toy bcrypt: the hash appends a mark,
compare checks for it. -/
def demoEnv : Env :=
  { jwtSecret := some "secret",
    hash := fun p _ => p ++ "#",
    compare := fun s h => h == s ++ "#" }

/-- A request at time 1000 during which no query raises. -/
def demoRun : Run :=
  { now := 1000, dbFails := fun _ => false }

/-- The store after Alice has signed up on the empty store under `demoEnv`. -/
def aliceStore : Store :=
  { signupusers := [{ id := 1, name := some "Alice", email := some "a@x.com",
                      password := some "pw123#", created_at := 1000 }],
    taskmanagement := [], userSeq := 2, taskSeq := 1 }

/-- A task titled 'Call', with NULL details and due date. -/
def sampleCall : TaskRow :=
  { id := 2, task_title := some "Call", category := some "Home", details := none,
    priority_level := some "Low", due_date := none,
    status := some "Pending", created_at := 20 }

/-- A task table with two rows titled 'Report' and `sampleCall` between them. -/
def sampleTasks : Store :=
  { signupusers := [],
    taskmanagement :=
      [{ id := 1, task_title := some "Report", category := some "Work", details := some "Q1",
         priority_level := some "High", due_date := some "2025-01-01",
         status := some "Pending", created_at := 10 },
       sampleCall,
       { id := 3, task_title := some "Report", category := some "Club", details := some "Q2",
         priority_level := some "Low", due_date := some "2025-02-01",
         status := some "Completed", created_at := 30 }],
    userSeq := 1, taskSeq := 4 }

/-- A task table whose statuses are Pending, Pending, Completed. -/
def threeTasks : Store :=
  { signupusers := [],
    taskmanagement :=
      [{ id := 1, task_title := some "a", category := none, details := none,
         priority_level := none, due_date := none, status := some "Pending", created_at := 1 },
       { id := 2, task_title := some "b", category := none, details := none,
         priority_level := none, due_date := none, status := some "Pending", created_at := 2 },
       { id := 3, task_title := some "c", category := none, details := none,
         priority_level := none, due_date := none, status := some "Completed",
         created_at := 3 }],
    userSeq := 1, taskSeq := 4 }

/-- A request at time 1000 during which exactly the `k`-th query raises. -/
def failRun (k : Nat) : Run :=
  { now := 1000, dbFails := fun i => i == k }

/-- A configuration like `demoEnv` but without `JWT_SECRET`. -/
def noSecretEnv : Env :=
  { jwtSecret := none,
    hash := fun p _ => p ++ "#",
    compare := fun s h => h == s ++ "#" }

/-- The token a login of Alice (id 1) at time 1000 under `demoEnv` returns. -/
def aliceToken : Token :=
  { id := some 1, iat := 1000, exp := 4600, key := "secret" }

/-- A toy serialization that knows one token, written `alice.jwt`. -/
def demoCodec : Codec :=
  { encode := fun _ => "alice.jwt",
    decode := fun s => if s = "alice.jwt" then some aliceToken else none }

/-- A create-task body titled 'Report' that also carries a status. -/
def reportBody : TaskBody :=
  { name := .str "Report", category := .str "Work", description := .str "Q1",
    priority := .str "High", deadline := .str "2025-01-01", status := .str "Completed" }

/-- A stand-in for `toLowerCase` that lowers the letters A to Z only. -/
def asciiLower (s : String) : String :=
  String.mk (s.data.map Char.toLower)

/-- A create-task body with no field at all. -/
def emptyBody : TaskBody :=
  { name := .undefined, category := .undefined, description := .undefined,
    priority := .undefined, deadline := .undefined, status := .undefined }

/-- The task page after fetching `sampleTasks`, with the Priority selector on
'High' and an empty search box. -/
def samplePage : TaskPage :=
  { search := "", priorityFilter := "High",
    tasks := sampleTasks.taskmanagement.map ClientTask.ofRow,
    editingTask := none, taskTitle := some "", category := some "", details := some "",
    priority := some "", dueDateTime := some "", status := some "" }

/-- The page `samplePage` while row 1 ('Report') is edited: details changed to
'later' and priority to 'Low', the other cells as `handleEdit` filled them. -/
def editingPage : TaskPage :=
  { samplePage with
      editingTask := some
        { id := 1, task_title := some "Report", category := some "Work", details := some "Q1",
          priority_level := some "High", due_date := some "2025-01-01",
          status := some "Pending", created_at := 10 },
      taskTitle := some "Report", category := some "Work", details := some "later",
      priority := some "Low", dueDateTime := some "2025-01-01", status := some "Pending" }

/-- The server behind the page: `PUT /api/updateTaskmanagement` on `sampleTasks`. -/
def sampleSend (body : UpdateBody) : Option Response :=
  some (updateTaskmanagement demoRun sampleTasks body).2


/-! ## Auxiliary facts -/

theorem prepareValue_of_truthy (v : Val) (h : truthy v = true) :
    ∃ s, prepareValue v = some s := by
  cases v <;> simp [truthy, prepareValue] at h ⊢

theorem sqlEq_self_some (s : String) : sqlEq (some s) (some s) = true := by
  simp [sqlEq]

theorem sqlEq_eq_true_iff (col param : Sql) :
    sqlEq col param = true ↔ ∃ s, col = some s ∧ param = some s := by
  cases col with
  | none => simp [sqlEq]
  | some a =>
    cases param with
    | none => simp [sqlEq]
    | some b =>
      simp only [sqlEq, beq_iff_eq, Option.some.injEq]
      constructor
      · intro h; exact ⟨a, rfl, h.symm⟩
      · rintro ⟨s, h1, h2⟩; rw [h1, h2]

theorem query_ok {α : Type} (run : Run) (k : Nat) (r : α) (h : run.dbFails k = false) :
    query run k r = .ok r := by
  simp [query, h]

theorem query_fail {α : Type} (run : Run) (k : Nat) (r : α) (h : run.dbFails k = true) :
    query run k r = .error () := by
  simp [query, h]

/-! ## Signup -/

/-- C1: signup with truthy name, email and password, on a store in which some
user row already has exactly that email, answers 400 'Email is already in use.'
and returns the store as it was (no row added, no token in the response), when
the lookup query does not raise. -/
theorem signup_email_in_use (env : Env) (run : Run) (st : Store) (body : SignupBody)
    (hname : truthy body.name = true) (hemail : truthy body.email = true)
    (hpw : truthy body.password = true) (hq : run.dbFails 0 = false)
    (hex : ∃ u ∈ st.signupusers, u.email = prepareValue body.email) :
    signup env run st body =
      (st, { status := 400, message := "Email is already in use." }) := by
  obtain ⟨u, hu, hue⟩ := hex
  obtain ⟨s, hs⟩ := prepareValue_of_truthy body.email hemail
  have hmem : u ∈ selectUsersByEmail st body.email := by
    simp [selectUsersByEmail, List.mem_filter, hu, hue, hs, sqlEq]
  have hpos : (selectUsersByEmail st body.email).length > 0 := List.length_pos_of_mem hmem
  simp [signup, hname, hemail, hpw, query_ok run 0 _ hq, hpos]

/-- C3: signup with truthy name, email and password, on a store with no user
of that email, when neither query raises, bcrypt.hash yields `h` and
generateToken yields `tok`: the users table gains exactly one row, holding the
supplied name and email and `h` as password, and the answer is 201
'Sign up successful!' with `tok`, a token over the new row's id that expires
3600 seconds after issue. -/
theorem signup_success (env : Env) (run : Run) (st : Store) (body : SignupBody)
    (h : String) (tok : Token)
    (hname : truthy body.name = true) (hemail : truthy body.email = true)
    (hpw : truthy body.password = true)
    (hq0 : run.dbFails 0 = false) (hq1 : run.dbFails 1 = false)
    (hfree : ∀ u ∈ st.signupusers, u.email ≠ prepareValue body.email)
    (hh : bcryptHash env body.password 10 = .ok h)
    (ht : generateToken env run (some st.userSeq) = .ok tok) :
    signup env run st body =
      ({ st with
          signupusers := st.signupusers ++
            [{ id := st.userSeq, name := prepareValue body.name,
               email := prepareValue body.email, password := some h,
               created_at := run.now }],
          userSeq := st.userSeq + 1 },
       { status := 201, message := "Sign up successful!", token := some tok })
    ∧ tok.id = some st.userSeq ∧ tok.exp = tok.iat + 3600 := by
  have hnone : selectUsersByEmail st body.email = [] := by
    simp only [selectUsersByEmail, List.filter_eq_nil_iff]
    intro u hu hs
    obtain ⟨s, h1, h2⟩ := (sqlEq_eq_true_iff _ _).1 hs
    exact hfree u hu (h1.trans h2.symm)
  refine ⟨?_, ?_, ?_⟩
  · simp [signup, hname, hemail, hpw, query_ok run 0 _ hq0, hnone, hh,
      query_ok run 1 _ hq1, insertUser, ht]
  · unfold generateToken jwtSign at ht
    split at ht
    · simp at ht
    · split at ht
      · simp at ht
      · simp only [Except.ok.injEq] at ht
        rw [← ht]
  · unfold generateToken jwtSign at ht
    split at ht
    · simp at ht
    · split at ht
      · simp at ht
      · simp only [Except.ok.injEq] at ht
        rw [← ht]

/-! ## Login -/

/-- C4: with truthy email and password and a lookup that does not raise, a
login for which no user row has the email and a login for which the first row
with the email fails the password comparison receive the same response,
401 'Invalid email or password.' with no token, and each leaves its store
unchanged. -/
theorem login_failures_indistinguishable (env : Env) (run1 run2 : Run) (st1 st2 : Store)
    (b1 b2 : LoginBody) (u : UserRow) (rest : List UserRow)
    (he1 : truthy b1.email = true) (hp1 : truthy b1.password = true)
    (he2 : truthy b2.email = true) (hp2 : truthy b2.password = true)
    (hq1 : run1.dbFails 0 = false) (hq2 : run2.dbFails 0 = false)
    (hno : selectUsersByEmail st1 b1.email = [])
    (hrow : selectUsersByEmail st2 b2.email = u :: rest)
    (hcmp : bcryptCompare env b2.password u.password = .ok false) :
    login env run1 st1 b1 = (st1, { status := 401, message := "Invalid email or password." })
    ∧ login env run2 st2 b2 = (st2, { status := 401, message := "Invalid email or password." })
    ∧ (login env run1 st1 b1).2 = (login env run2 st2 b2).2
    ∧ (login env run1 st1 b1).2.token = none := by
  have e1 : login env run1 st1 b1 =
      (st1, { status := 401, message := "Invalid email or password." }) := by
    simp [login, he1, hp1, query_ok run1 0 _ hq1, hno]
  have e2 : login env run2 st2 b2 =
      (st2, { status := 401, message := "Invalid email or password." }) := by
    simp [login, he2, hp2, query_ok run2 0 _ hq2, hrow, hcmp]
  refine ⟨e1, e2, ?_, ?_⟩
  · rw [e1, e2]
  · rw [e1]

/-- Inversion of a 201 from signup: the hash and the secret were available, no
row had the email, and the new store is the old one plus the new row. -/
theorem signup_ok_inv (env : Env) (run : Run) (st st1 : Store) (r : Response)
    (body : SignupBody)
    (hsu : signup env run st body = (st1, r)) (hr : r.status = 201) :
    ∃ h k, bcryptHash env body.password 10 = .ok h ∧ env.jwtSecret = some k ∧ k ≠ "" ∧
      selectUsersByEmail st body.email = [] ∧ truthy body.email = true ∧
      st1 = { st with
          signupusers := st.signupusers ++
            [{ id := st.userSeq, name := prepareValue body.name,
               email := prepareValue body.email, password := some h,
               created_at := run.now }],
          userSeq := st.userSeq + 1 } := by
  unfold signup at hsu
  split at hsu
  · simp only [Prod.mk.injEq] at hsu
    rw [← hsu.2] at hr; simp at hr
  · rename_i hfields
    split at hsu
    · simp only [Prod.mk.injEq] at hsu
      rw [← hsu.2] at hr; simp at hr
    · rename_i rows hrows
      split at hsu
      · simp only [Prod.mk.injEq] at hsu
        rw [← hsu.2] at hr; simp at hr
      · rename_i hlen
        split at hsu
        · simp only [Prod.mk.injEq] at hsu
          rw [← hsu.2] at hr; simp at hr
        · rename_i hashed hhash
          split at hsu
          · simp only [Prod.mk.injEq] at hsu
            rw [← hsu.2] at hr; simp at hr
          · rename_i st2 id hins
            split at hsu
            · simp only [Prod.mk.injEq] at hsu
              rw [← hsu.2] at hr; simp at hr
            · rename_i token htok
              simp only [Prod.mk.injEq] at hsu
              have hrows2 : rows = selectUsersByEmail st body.email := by
                unfold query at hrows
                split at hrows
                · simp at hrows
                · simp only [Except.ok.injEq] at hrows; exact hrows.symm
              have hins2 : (st2, id) = insertUser run st body.name body.email hashed := by
                unfold query at hins
                split at hins
                · simp at hins
                · simp only [Except.ok.injEq] at hins; exact hins.symm
              have hk : ∃ k, env.jwtSecret = some k ∧ k ≠ "" := by
                unfold generateToken jwtSign at htok
                split at htok
                · simp at htok
                · rename_i k hk
                  split at htok
                  · simp at htok
                  · rename_i hne
                    exact ⟨k, hk, hne⟩
              obtain ⟨k, hk1, hk2⟩ := hk
              refine ⟨hashed, k, hhash, hk1, hk2, ?_, ?_, ?_⟩
              · have : rows.length = 0 := by omega
                rw [← hrows2]
                exact List.length_eq_zero.1 this
              · simp only [Bool.or_eq_true, Bool.not_eq_true', not_or,
                  Bool.not_eq_false] at hfields
                exact hfields.1.2
              · simp only [insertUser, Prod.mk.injEq] at hins2
                rw [← hsu.1, hins2.1]

/-- C5: signup then login round-trips. Assume compare accepts `p` against
`hash p 10` and rejects every other string. If signup of non-empty strings
`n`, `e`, `p` on a store without email `e` succeeds (201) and yields store
`st1`, then `st1` is the old store plus the row of the new user (id
`st.userSeq`), a login with `e`, `p` answers 200 'Login successful!' with
`generateToken` of that id and name `n`, and a login with `e` and a non-empty
`q` other than `p` answers 401 with the generic message (lookups not raising). -/
theorem signup_login_roundtrip (env : Env) (run0 run1 run2 : Run) (st st1 : Store)
    (r : Response) (n e p q : String)
    (_hn : n ≠ "") (he : e ≠ "") (hp : p ≠ "") (hq : q ≠ "") (hqp : q ≠ p)
    (hcmp : env.compare p (env.hash p 10) = true)
    (hcmpq : ∀ s, s ≠ p → env.compare s (env.hash p 10) = false)
    (hfree : ∀ u ∈ st.signupusers, u.email ≠ some e)
    (hsu : signup env run0 st { name := .str n, email := .str e, password := .str p } = (st1, r))
    (hr : r.status = 201)
    (hl1 : run1.dbFails 0 = false) (hl2 : run2.dbFails 0 = false) :
    st1.signupusers = st.signupusers ++
      [{ id := st.userSeq, name := some n, email := some e,
         password := some (env.hash p 10), created_at := run0.now }]
    ∧ (∃ tok, generateToken env run1 (some st.userSeq) = .ok tok ∧
        login env run1 st1 { email := .str e, password := .str p } =
          (st1, { status := 200, message := "Login successful!", token := some tok,
                  name := some (some n) }))
    ∧ login env run2 st1 { email := .str e, password := .str q } =
        (st1, { status := 401, message := "Invalid email or password." }) := by
  obtain ⟨h, k, hh, hk, hkne, _, _, hst1⟩ := signup_ok_inv env run0 st st1 r _ hsu hr
  simp only [bcryptHash, Except.ok.injEq] at hh
  simp only [prepareValue] at hst1
  have hold : st.signupusers.filter (fun u => sqlEq u.email (some e)) = [] := by
    simp only [List.filter_eq_nil_iff]
    intro u hu hs
    obtain ⟨s, h1, h2⟩ := (sqlEq_eq_true_iff _ _).1 hs
    exact hfree u hu (h1.trans h2.symm)
  have hsel : ∀ v : Val, prepareValue v = some e → selectUsersByEmail st1 v =
      [{ id := st.userSeq, name := some n, email := some e,
         password := some (env.hash p 10), created_at := run0.now }] := by
    intro v hv
    simp only [selectUsersByEmail, hv, hst1, List.filter_append, hold, List.nil_append]
    simp [List.filter, sqlEq, hh]
  have hus : st1.signupusers = st.signupusers ++
      [{ id := st.userSeq, name := some n, email := some e,
         password := some (env.hash p 10), created_at := run0.now }] := by
    rw [hst1, ← hh]
  have htok : generateToken env run1 (some st.userSeq) =
      .ok { id := some st.userSeq, iat := run1.now, exp := run1.now + 3600, key := k } := by
    simp [generateToken, jwtSign, hk, hkne]
  refine ⟨hus, ⟨_, htok, ?_⟩, ?_⟩
  · simp [login, truthy, he, hp, query_ok run1 0 _ hl1, hsel (.str e) rfl, bcryptCompare,
      hcmp, htok]
  · simp [login, truthy, he, hq, query_ok run2 0 _ hl2, hsel (.str e) rfl, bcryptCompare,
      hcmpq q hqp]

/-! ## Tasks -/

/-- C6: for every request body, whatever `status` it carries, POST
/api/taskmanagement either answers 200 after appending one row whose status is
'Pending' (the other columns from the body), or answers 500 and leaves the
store as it was; no other row is ever inserted. -/
theorem taskmanagement_status_pending (env : Env) (run : Run) (st : Store) (body : TaskBody) :
    ((taskmanagement env run st body).2.status = 200 ∧
      (taskmanagement env run st body).1.taskmanagement = st.taskmanagement ++
        [{ id := st.taskSeq, task_title := prepareValue body.name,
           category := prepareValue body.category, details := prepareValue body.description,
           priority_level := prepareValue body.priority, due_date := prepareValue body.deadline,
           status := some "Pending", created_at := run.now }])
    ∨ ((taskmanagement env run st body).2.status = 500 ∧
        (taskmanagement env run st body).1 = st) := by
  unfold taskmanagement
  cases generateToken env run none with
  | error e => right; simp
  | ok tok =>
    by_cases hq : run.dbFails 0 = true
    · right; simp [query, hq]
    · left; simp [query, hq, insertTask]

/-- C7: PUT /api/updateTaskmanagement with a taskname that no row has as
task_title answers 404 'Task not found' and returns the store as it was, when
the lookup does not raise (whatever a second query would have done). -/
theorem updateTaskmanagement_not_found (run : Run) (st : Store) (body : UpdateBody)
    (hq : run.dbFails 0 = false)
    (hno : ∀ t ∈ st.taskmanagement, sqlEq t.task_title (prepareValue body.taskname) = false) :
    updateTaskmanagement run st body = (st, { status := 404, message := "Task not found" }) := by
  have hnone : selectTasksByTitle st body.taskname = [] := by
    simp only [selectTasksByTitle, List.filter_eq_nil_iff]
    intro t ht
    simp [hno t ht]
  simp [updateTaskmanagement, query_ok run 0 _ hq, hnone]

/-- C8: PUT /api/updateTaskmanagement with a taskname matched by at least one
row, when neither query raises, answers 200 'Task updated successfully.', and
afterwards every row titled taskname carries the request's category,
description, priority, deadline and status (as sent, no coercion) in
category, details, priority_level, due_date and status; such rows exist. -/
theorem updateTaskmanagement_overwrites (run : Run) (st : Store) (body : UpdateBody)
    (hq0 : run.dbFails 0 = false) (hq1 : run.dbFails 1 = false)
    (hex : ∃ t ∈ st.taskmanagement, sqlEq t.task_title (prepareValue body.taskname) = true) :
    (updateTaskmanagement run st body).2.status = 200
    ∧ (updateTaskmanagement run st body).2.message = "Task updated successfully."
    ∧ (∀ t ∈ (updateTaskmanagement run st body).1.taskmanagement,
        sqlEq t.task_title (prepareValue body.taskname) = true →
          t.category = prepareValue body.category ∧
          t.details = prepareValue body.description ∧
          t.priority_level = prepareValue body.priority ∧
          t.due_date = prepareValue body.deadline ∧
          t.status = prepareValue body.status)
    ∧ (∃ t ∈ (updateTaskmanagement run st body).1.taskmanagement,
        sqlEq t.task_title (prepareValue body.taskname) = true) := by
  obtain ⟨t0, ht0, hm0⟩ := hex
  have hmem : t0 ∈ selectTasksByTitle st body.taskname := by
    simp [selectTasksByTitle, List.mem_filter, ht0, hm0]
  have hne : selectTasksByTitle st body.taskname ≠ [] := by
    intro h; rw [h] at hmem; simp at hmem
  have hrun : updateTaskmanagement run st body =
      ((updateTasksByTitle st (prepareValue body.category)
          (prepareValue body.description) (prepareValue body.priority)
          (prepareValue body.deadline) (prepareValue body.status)
          (prepareValue body.taskname)).1,
       { status := 200, message := "Task updated successfully.",
         updatedTask := (updateTasksByTitle st (prepareValue body.category)
          (prepareValue body.description) (prepareValue body.priority)
          (prepareValue body.deadline) (prepareValue body.status)
          (prepareValue body.taskname)).2.head? }) := by
    simp [updateTaskmanagement, query_ok run 0 _ hq0, query_ok run 1 _ hq1, hne]
  rw [hrun]
  refine ⟨rfl, rfl, ?_, ?_⟩
  · intro t ht hm
    simp only [updateTasksByTitle, List.mem_map] at ht
    obtain ⟨a, _, hat⟩ := ht
    by_cases ha : sqlEq a.task_title (prepareValue body.taskname) = true
    · rw [if_pos ha] at hat
      subst hat
      simp [setColumns]
    · rw [if_neg ha] at hat
      subst hat
      exact absurd hm ha
  · refine ⟨setColumns t0 (prepareValue body.category)
          (prepareValue body.description) (prepareValue body.priority)
          (prepareValue body.deadline) (prepareValue body.status), ?_, ?_⟩
    · simp only [updateTasksByTitle, List.mem_map]
      exact ⟨t0, ht0, by rw [if_pos hm0]⟩
    · simpa [setColumns] using hm0

/-- The store PUT /api/updateTaskmanagement returns is the old one or the one
the UPDATE statement produces. -/
theorem updateTaskmanagement_store (run : Run) (st : Store) (body : UpdateBody) :
    (updateTaskmanagement run st body).1 = st ∨
    (updateTaskmanagement run st body).1 =
      (updateTasksByTitle st (prepareValue body.category)
          (prepareValue body.description) (prepareValue body.priority)
          (prepareValue body.deadline) (prepareValue body.status)
          (prepareValue body.taskname)).1 := by
  unfold updateTaskmanagement query
  by_cases h0 : run.dbFails 0 = true
  · left; simp [h0]
  · by_cases hl : (selectTasksByTitle st body.taskname).length = 0
    · left; simp [h0, hl]
    · by_cases h1 : run.dbFails 1 = true
      · left; simp [h0, hl, h1]
      · right; simp [h0, hl, h1]

/-- The store signup returns is the old one, or the old one plus one user row
whose (non-NULL) email no earlier row has. -/
theorem signup_store (env : Env) (run : Run) (st : Store) (body : SignupBody) :
    (signup env run st body).1 = st ∨
    ∃ h, selectUsersByEmail st body.email = [] ∧ truthy body.email = true ∧
      (signup env run st body).1 = (insertUser run st body.name body.email h).1 := by
  unfold signup query
  by_cases hf : (!truthy body.name || !truthy body.email || !truthy body.password) = true
  · left; simp only [hf, if_true]
  · have hem : truthy body.email = true := by
      simp only [Bool.or_eq_true, Bool.not_eq_true', not_or, Bool.not_eq_false] at hf
      exact hf.1.2
    by_cases h0 : run.dbFails 0 = true
    · left; simp [hf, h0]
    · by_cases hl : (selectUsersByEmail st body.email).length > 0
      · left; simp [hf, h0, hl]
      · have hnil : selectUsersByEmail st body.email = [] :=
          List.length_eq_zero.1 (by omega)
        cases hh : bcryptHash env body.password 10 with
        | error e => left; simp [hf, h0, hnil, hh]
        | ok h =>
          by_cases h1 : run.dbFails 1 = true
          · left; simp [hf, h0, hnil, hh, h1]
          · right
            refine ⟨h, hnil, hem, ?_⟩
            cases ht : generateToken env run (some st.userSeq) with
            | error e => simp [hf, h0, hnil, hh, h1, insertUser, ht]
            | ok tok => simp [hf, h0, hnil, hh, h1, insertUser, ht]

theorem login_store (env : Env) (run : Run) (st : Store) (body : LoginBody) :
    (login env run st body).1 = st := by
  unfold login
  split
  · rfl
  · split
    · rfl
    · split
      · rfl
      · split
        · rfl
        · split
          · rfl
          · split <;> rfl

theorem taskmanagement_users (env : Env) (run : Run) (st : Store) (body : TaskBody) :
    (taskmanagement env run st body).1.signupusers = st.signupusers := by
  unfold taskmanagement query
  split
  · rfl
  · by_cases h0 : run.dbFails 0 = true <;> simp [h0, insertTask]

theorem getTaskmanagement_store (env : Env) (run : Run) (st : Store) :
    (getTaskmanagement env run st).1 = st := by
  unfold getTaskmanagement
  split
  · rfl
  · split <;> rfl

theorem getCounts_store (env : Env) (run : Run) (st : Store) :
    (getCounts env run st).1 = st := by
  unfold getCounts
  split
  · rfl
  · split <;> rfl

theorem deleteTaskmanagement_users (run : Run) (st : Store) (taskId : Nat) :
    (deleteTaskmanagement run st taskId).1.signupusers = st.signupusers := by
  unfold deleteTaskmanagement query
  by_cases h0 : run.dbFails 0 = true
  · simp [h0]
  · simp only [h0, deleteTaskById]
    split
    · rename_i heq; simp at heq
    · rename_i st1 rows heq
      simp only [Bool.false_eq_true, if_false, Except.ok.injEq, Prod.mk.injEq] at heq
      split <;> simp [← heq.1]

/-- Every request leaves the users table as it was or appends one row whose
email no earlier row has. -/
theorem handle_users (env : Env) (run : Run) (st : Store) (req : Request) :
    (handle env run st req).1.signupusers = st.signupusers ∨
    ∃ row, (handle env run st req).1.signupusers = st.signupusers ++ [row] ∧
      ∀ u ∈ st.signupusers, u.email ≠ row.email := by
  unfold handle
  cases req.op with
  | signup body =>
    rcases signup_store env run st body with h | ⟨h, hnil, hem, hst⟩
    · left; simp only [h]
    · right
      obtain ⟨s, hs⟩ := prepareValue_of_truthy body.email hem
      refine ⟨{ id := st.userSeq, name := prepareValue body.name,
                email := prepareValue body.email, password := some h,
                created_at := run.now }, by simp only [hst, insertUser], ?_⟩
      intro u hu he
      simp only at he
      have hmem : u ∈ selectUsersByEmail st body.email := by
        simp only [selectUsersByEmail, List.mem_filter]
        refine ⟨hu, ?_⟩
        rw [he, hs]
        exact sqlEq_self_some s
      rw [hnil] at hmem
      simp at hmem
  | login body => left; simp only [login_store]
  | taskmanagement body => left; exact taskmanagement_users env run st body
  | getTaskmanagement => left; simp only [getTaskmanagement_store]
  | updateTaskmanagement body =>
    left
    rcases updateTaskmanagement_store run st body with h | h
    · simp only [h]
    · simp only [h, updateTasksByTitle]
  | deleteTaskmanagement taskId => left; exact deleteTaskmanagement_users run st taskId
  | getCounts => left; simp only [getCounts_store]

theorem exec_preserves_unique (steps : List Step) (st : Store)
    (h : List.Pairwise (fun a b : UserRow => a.email ≠ b.email) st.signupusers) :
    List.Pairwise (fun a b : UserRow => a.email ≠ b.email) (exec st steps).signupusers := by
  induction steps generalizing st with
  | nil => exact h
  | cons step steps ih =>
    simp only [exec, List.foldl_cons]
    apply ih
    rcases handle_users step.env step.run st step.req with hu | ⟨row, hu, hfresh⟩
    · rw [hu]; exact h
    · rw [hu, List.pairwise_append]
      refine ⟨h, List.pairwise_singleton _ _, ?_⟩
      intro a ha b hb
      rw [List.mem_singleton] at hb
      subst hb
      exact hfresh a ha

/-- C2: in every store reached from the empty store by handling any finite
sequence of requests (any of the seven operations, under any configuration,
clock and query failures), no two user rows have the same email. -/
theorem email_unique_invariant (steps : List Step) :
    List.Pairwise (fun a b : UserRow => a.email ≠ b.email)
      (exec Store.empty steps).signupusers :=
  exec_preserves_unique steps Store.empty List.Pairwise.nil

/-- C9: PUT /api/updateTaskmanagement, for every store, request and run
(failing or not), keeps the users table and the number of task rows, and row by
row keeps id, task_title and created_at, leaving a row whose title does not
match taskname exactly as it was. -/
theorem updateTaskmanagement_frame (run : Run) (st : Store) (body : UpdateBody) :
    (updateTaskmanagement run st body).1.signupusers = st.signupusers
    ∧ (updateTaskmanagement run st body).1.taskmanagement.length = st.taskmanagement.length
    ∧ List.Forall₂
        (fun t t1 : TaskRow =>
          t1.id = t.id ∧ t1.task_title = t.task_title ∧ t1.created_at = t.created_at ∧
          (sqlEq t.task_title (prepareValue body.taskname) = false → t1 = t))
        st.taskmanagement (updateTaskmanagement run st body).1.taskmanagement := by
  have hsame : List.Forall₂
      (fun t t1 : TaskRow =>
        t1.id = t.id ∧ t1.task_title = t.task_title ∧ t1.created_at = t.created_at ∧
        (sqlEq t.task_title (prepareValue body.taskname) = false → t1 = t))
      st.taskmanagement st.taskmanagement := by
    rw [List.forall₂_same]
    intro t _
    exact ⟨rfl, rfl, rfl, fun _ => rfl⟩
  rcases updateTaskmanagement_store run st body with h | h
  · rw [h]
    exact ⟨rfl, rfl, hsame⟩
  · rw [h]
    refine ⟨rfl, ?_, ?_⟩
    · simp [updateTasksByTitle]
    · simp only [updateTasksByTitle, List.forall₂_map_right_iff, List.forall₂_same]
      intro t _
      by_cases hm : sqlEq t.task_title (prepareValue body.taskname) = true
      · rw [if_pos hm]
        refine ⟨rfl, rfl, rfl, ?_⟩
        intro hf; rw [hm] at hf; cases hf
      · rw [if_neg hm]
        exact ⟨rfl, rfl, rfl, fun _ => rfl⟩

theorem filter_id_ne_of_absent (l : List TaskRow) (k : Nat) (h : ∀ t ∈ l, t.id ≠ k) :
    l.filter (fun t => t.id != k) = l ∧ l.filter (fun t => t.id == k) = [] := by
  constructor
  · rw [List.filter_eq_self]
    intro t ht
    simpa using h t ht
  · rw [List.filter_eq_nil_iff]
    intro t ht
    simpa using h t ht

theorem filter_id_of_mem (l : List TaskRow) (t : TaskRow)
    (hnd : (l.map (fun x => x.id)).Nodup) (ht : t ∈ l) :
    l.filter (fun x => x.id != t.id) = l.erase t ∧ l.filter (fun x => x.id == t.id) = [t] := by
  induction l with
  | nil => simp at ht
  | cons a l ih =>
    simp only [List.map_cons, List.nodup_cons, List.mem_map, not_exists, not_and] at hnd
    obtain ⟨ha, hl⟩ := hnd
    by_cases hat : a = t
    · subst hat
      have habs : ∀ x ∈ l, x.id ≠ a.id := fun x hx hxe => ha x hx hxe
      obtain ⟨h1, h2⟩ := filter_id_ne_of_absent l a.id habs
      simp [List.filter_cons, h1, h2]
    · have htl : t ∈ l := by
        rcases List.mem_cons.1 ht with h | h
        · exact absurd h.symm hat
        · exact h
      have hid : a.id ≠ t.id := fun he => ha t htl he.symm
      obtain ⟨h1, h2⟩ := ih hl htl
      have hne : (a == t) = false := by simpa using hat
      simp [List.filter_cons, hid, h1, h2, List.erase_cons, hne]

/-- C10: DELETE /api/deleteTaskmanagement/:taskId on a table with unique ids,
when the query does not raise: the answer is 404 'Task not found' with the store
as it was exactly when no row has the id; and when row `t` has the id, the answer
is 200 with deletedTask `t` as it stood, the new table is the old one with that
single row erased, one shorter, without `t` and with every other row kept. -/
theorem deleteTaskmanagement_spec (run : Run) (st : Store) (taskId : Nat)
    (hq : run.dbFails 0 = false)
    (hnd : (st.taskmanagement.map (fun x => x.id)).Nodup) :
    (deleteTaskmanagement run st taskId = (st, { status := 404, message := "Task not found" })
      ↔ ∀ t ∈ st.taskmanagement, t.id ≠ taskId)
    ∧ (∀ t ∈ st.taskmanagement, t.id = taskId →
        deleteTaskmanagement run st taskId =
          ({ st with taskmanagement := st.taskmanagement.erase t },
           { status := 200, message := "Task deleted successfully.", deletedTask := some t })
        ∧ (st.taskmanagement.erase t).length + 1 = st.taskmanagement.length
        ∧ t ∉ st.taskmanagement.erase t
        ∧ ∀ t1 ∈ st.taskmanagement, t1 ≠ t → t1 ∈ st.taskmanagement.erase t) := by
  have hfound : ∀ t ∈ st.taskmanagement, t.id = taskId →
      deleteTaskmanagement run st taskId =
        ({ st with taskmanagement := st.taskmanagement.erase t },
         { status := 200, message := "Task deleted successfully.", deletedTask := some t }) := by
    intro t ht hid
    subst hid
    obtain ⟨h1, h2⟩ := filter_id_of_mem st.taskmanagement t hnd ht
    simp [deleteTaskmanagement, query_ok run 0 _ hq, deleteTaskById, h1, h2]
  constructor
  · constructor
    · intro h t ht hid
      rw [hfound t ht hid] at h
      simp at h
    · intro h
      obtain ⟨h1, h2⟩ := filter_id_ne_of_absent st.taskmanagement taskId h
      simp [deleteTaskmanagement, query_ok run 0 _ hq, deleteTaskById, h1, h2]
  · intro t ht hid
    refine ⟨hfound t ht hid, ?_, ?_, ?_⟩
    · rw [List.length_erase_of_mem ht]
      have := List.length_pos_of_mem ht
      omega
    · have hnd2 : st.taskmanagement.Nodup := List.Nodup.of_map _ hnd
      exact fun hmem => (List.Nodup.mem_erase_iff hnd2).1 hmem |>.1 rfl
    · intro t1 ht1 hne
      exact (List.mem_erase_of_ne hne).2 ht1

/-! ## Counts -/

theorem length_filter_split {α : Type} (l : List α) (p q : α → Bool)
    (hpq : ∀ a ∈ l, ¬ (p a = true ∧ q a = true)) :
    l.length = (l.filter p).length + (l.filter q).length +
      (l.filter (fun a => !p a && !q a)).length := by
  induction l with
  | nil => rfl
  | cons a l ih =>
    have ih1 := ih (fun b hb => hpq b (List.mem_cons_of_mem a hb))
    have ha := hpq a (List.mem_cons_self a l)
    cases hp : p a <;> cases hq : q a <;>
      simp [List.filter_cons, hp, hq] at ha ⊢ <;> omega

theorem sqlEq_some_eq_decide (col : Sql) (s : String) :
    sqlEq col (some s) = decide (col = some s) := by
  cases col with
  | none => simp [sqlEq]
  | some a => by_cases h : a = s <;> simp [sqlEq, h]

/-- C11: GET /api/getCounts, when the token is produced and the query does not
raise, answers 200 with total_count the number of rows, pending_count the
number of rows whose status is exactly 'Pending' and completed_count the number
whose status is exactly 'Completed'; the total is the sum of the two and of the
number of rows with any other (or NULL) status, hence of the two alone when
every status is one of the two values. -/
theorem getCounts_spec (env : Env) (run : Run) (st : Store) (tok : Token)
    (ht : generateToken env run none = .ok tok) (hq : run.dbFails 0 = false) :
    getCounts env run st =
      (st, { status := 200, message := "Task counts fetched successfully.",
             token := some tok,
             counts := some
               { total_count := st.taskmanagement.length,
                 pending_count :=
                   (st.taskmanagement.filter (fun t => decide (t.status = some "Pending"))).length,
                 completed_count :=
                   (st.taskmanagement.filter
                     (fun t => decide (t.status = some "Completed"))).length } })
    ∧ st.taskmanagement.length =
        (st.taskmanagement.filter (fun t => decide (t.status = some "Pending"))).length +
        (st.taskmanagement.filter (fun t => decide (t.status = some "Completed"))).length +
        (st.taskmanagement.filter (fun t =>
          decide (t.status ≠ some "Pending" ∧ t.status ≠ some "Completed"))).length
    ∧ ((∀ t ∈ st.taskmanagement, t.status = some "Pending" ∨ t.status = some "Completed") →
        st.taskmanagement.length =
          (st.taskmanagement.filter (fun t => decide (t.status = some "Pending"))).length +
          (st.taskmanagement.filter (fun t => decide (t.status = some "Completed"))).length) := by
  have hP : (fun t : TaskRow => sqlEq t.status (some "Pending")) =
      (fun t => decide (t.status = some "Pending")) := by
    funext t
    exact sqlEq_some_eq_decide _ _
  have hC : (fun t : TaskRow => sqlEq t.status (some "Completed")) =
      (fun t => decide (t.status = some "Completed")) := by
    funext t
    exact sqlEq_some_eq_decide _ _
  have hsplit := length_filter_split st.taskmanagement
    (fun t => decide (t.status = some "Pending"))
    (fun t => decide (t.status = some "Completed"))
    (by
      intro t _ h
      simp only [decide_eq_true_eq] at h
      have := h.1.symm.trans h.2
      simp at this)
  have hO : (fun t : TaskRow =>
      (!decide (t.status = some "Pending") && !decide (t.status = some "Completed"))) =
      (fun t => decide (t.status ≠ some "Pending" ∧ t.status ≠ some "Completed")) := by
    funext t
    by_cases h1 : t.status = some "Pending" <;> by_cases h2 : t.status = some "Completed" <;>
      simp [h1, h2]
  rw [hO] at hsplit
  refine ⟨?_, hsplit, ?_⟩
  · simp [getCounts, ht, query_ok run 0 _ hq, selectCounts, hP, hC]
  · intro hall
    have hnil : st.taskmanagement.filter (fun t =>
        decide (t.status ≠ some "Pending" ∧ t.status ≠ some "Completed")) = [] := by
      rw [List.filter_eq_nil_iff]
      intro t ht
      rcases hall t ht with h | h <;> simp [h]
    rw [hnil] at hsplit
    simpa using hsplit

/-! ## The token gate -/

theorem jwtVerify_ok_iff (codec : Codec) (token : String) (secret : Option String) (now : Nat)
    (user : Payload) :
    jwtVerify codec token secret now = .ok user ↔
      ∃ k t, secret = some k ∧ k ≠ "" ∧ codec.decode token = some t ∧ t.key = k ∧
        now < t.exp ∧ user = t.payload := by
  constructor
  · intro h
    unfold jwtVerify at h
    split at h
    · simp at h
    · rename_i k
      split at h
      · simp at h
      · rename_i hk
        split at h
        · simp at h
        · rename_i t hd
          split at h
          · simp at h
          · rename_i hkey
            split at h
            · simp at h
            · rename_i hexp
              simp only [Except.ok.injEq] at h
              exact ⟨k, t, rfl, hk, hd, by simpa using hkey, by omega, h.symm⟩
  · rintro ⟨k, t, rfl, hk, hd, hkey, hexp, rfl⟩
    have hlt : ¬ (now ≥ t.exp) := by omega
    simp [jwtVerify, hk, hd, hkey, hlt]

theorem splitOnSpace_of_no_space (w : List Char) (h : ' ' ∉ w) : splitOnSpace w = [w] := by
  induction w with
  | nil => rfl
  | cons c cs ih =>
    have hc : c ≠ ' ' := fun e => h (by rw [e]; exact List.mem_cons_self _ _)
    have hcs : ' ' ∉ cs := fun e => h (List.mem_cons_of_mem _ e)
    simp [splitOnSpace, hc, ih hcs]

theorem bearerSegment_bearer (w : String) (h : ' ' ∉ w.data) :
    bearerSegment (some ("Bearer " ++ w)) = some w := by
  have hne : "Bearer " ++ w ≠ "" := by
    intro e
    have := congrArg String.data e
    simp [String.data_append] at this
  have hdata : ("Bearer " ++ w).data = 'B' :: 'e' :: 'a' :: 'r' :: 'e' :: 'r' :: ' ' :: w.data := by
    simp [String.data_append]
  simp [bearerSegment, hne, hdata, splitOnSpace, splitOnSpace_of_no_space w.data h]

/-- C12: the Authorization header plays no part in any operation: two requests
that differ only in that header (absent, malformed, expired or valid) get the
same response, task data included, and leave the same store; in particular for
create, list, update, delete and counts. -/
theorem handle_ignores_authorization (env : Env) (run : Run) (st : Store)
    (a1 a2 : Option String) (op : Op) :
    handle env run st { authorization := a1, op := op } =
      handle env run st { authorization := a2, op := op } := by
  cases op <;> rfl

/-- C13, evaluated on the code: on the empty store, POST /api/taskmanagement
with no Authorization header, and with a header whose token is not a JWT, is
answered 200 and inserts the row, although `authenticateToken` would send 401
and 403 for these headers. -/
theorem taskmanagement_unprotected :
    authenticateToken demoCodec demoEnv 1000 none = .sendStatus 401
    ∧ (handle demoEnv demoRun Store.empty
        { authorization := none, op := .taskmanagement reportBody }).2.status = 200
    ∧ (handle demoEnv demoRun Store.empty
        { authorization := none, op := .taskmanagement reportBody }).1.taskmanagement.length = 1
    ∧ authenticateToken demoCodec demoEnv 1000 (some "Bearer garbage") = .sendStatus 403
    ∧ (handle demoEnv demoRun Store.empty
        { authorization := some "Bearer garbage",
          op := .taskmanagement reportBody }).2.status = 200
    ∧ (handle demoEnv demoRun Store.empty
        { authorization := some "Bearer garbage",
          op := .taskmanagement reportBody }).1.taskmanagement.length = 1 := by
  refine ⟨?_, ?_, ?_, ?_, ?_, ?_⟩ <;> decide

/-- C14: `authenticateToken` has exactly three outcomes. Without a header, or
when the header has no non-empty second space-separated segment, it sends 401;
when that segment is rejected by jwt.verify it sends 403; otherwise jwt.verify
yields the payload of a well-formed token signed with the secret and not yet
expired, which becomes `req.user` as `next` is called. In the first two cases
`next` is not called. -/
theorem authenticateToken_three_ways (codec : Codec) (env : Env) (now : Nat)
    (authHeader : Option String) :
    authenticateToken codec env now none = .sendStatus 401
    ∧ (((bearerSegment authHeader = none ∨ bearerSegment authHeader = some "") ∧
      authenticateToken codec env now authHeader = .sendStatus 401)
    ∨ (∃ token, bearerSegment authHeader = some token ∧ token ≠ "" ∧
        jwtVerify codec token env.jwtSecret now = .error () ∧
        authenticateToken codec env now authHeader = .sendStatus 403)
    ∨ (∃ token k t, bearerSegment authHeader = some token ∧ token ≠ "" ∧
        env.jwtSecret = some k ∧ k ≠ "" ∧ codec.decode token = some t ∧ t.key = k ∧
        now < t.exp ∧
        jwtVerify codec token env.jwtSecret now = .ok t.payload ∧
        authenticateToken codec env now authHeader = .next t.payload)) := by
  refine ⟨rfl, ?_⟩
  cases hseg : bearerSegment authHeader with
  | none => left; simp [authenticateToken, hseg]
  | some token =>
    by_cases hne : token = ""
    · left; simp [authenticateToken, hseg, hne]
    · cases hv : jwtVerify codec token env.jwtSecret now with
      | error e =>
        right; left
        exact ⟨token, rfl, hne, hv, by simp [authenticateToken, hseg, hne, hv]⟩
      | ok user =>
        right; right
        obtain ⟨k, t, h1, h2, h3, h4, h5, h6⟩ :=
          (jwtVerify_ok_iff codec token env.jwtSecret now user).1 hv
        subst h6
        exact ⟨token, k, t, rfl, hne, h1, h2, h3, h4, h5, hv,
          by simp [authenticateToken, hseg, hne, hv]⟩

theorem login_ok_inv (env : Env) (run : Run) (st st1 : Store) (r : Response) (body : LoginBody)
    (hl : login env run st body = (st1, r)) (hr : r.status = 200) :
    ∃ u rest k, selectUsersByEmail st body.email = u :: rest ∧
      env.jwtSecret = some k ∧ k ≠ "" ∧ st1 = st ∧
      r = { status := 200, message := "Login successful!",
            token := some { id := some u.id, iat := run.now, exp := run.now + 3600, key := k },
            name := some u.name } := by
  unfold login at hl
  split at hl
  · simp only [Prod.mk.injEq] at hl
    rw [← hl.2] at hr; simp at hr
  · split at hl
    · simp only [Prod.mk.injEq] at hl
      rw [← hl.2] at hr; simp at hr
    · rename_i rows hrows
      have hrows2 : rows = selectUsersByEmail st body.email := by
        unfold query at hrows
        split at hrows
        · simp at hrows
        · simp only [Except.ok.injEq] at hrows; exact hrows.symm
      split at hl
      · simp only [Prod.mk.injEq] at hl
        rw [← hl.2] at hr; simp at hr
      · rename_i user rest
        split at hl
        · simp only [Prod.mk.injEq] at hl
          rw [← hl.2] at hr; simp at hr
        · split at hl
          · simp only [Prod.mk.injEq] at hl
            rw [← hl.2] at hr; simp at hr
          · split at hl
            · simp only [Prod.mk.injEq] at hl
              rw [← hl.2] at hr; simp at hr
            · rename_i token htok
              simp only [Prod.mk.injEq] at hl
              unfold generateToken jwtSign at htok
              split at htok
              · simp at htok
              · rename_i k hk
                split at htok
                · simp at htok
                · rename_i hkne
                  simp only [Except.ok.injEq] at htok
                  refine ⟨user, rest, k, hrows2.symm, hk, hkne, hl.1.symm, ?_⟩
                  rw [← hl.2, ← htok]

/-- C15: if a login at time `run.now` succeeds (200) with token `tok`, and the
serialization of `tok` is a non-empty string without spaces that parses back to
`tok`, then `tok` is over the id of the user the login found, and
`authenticateToken` on the header 'Bearer <tok>' under the same secret calls
next with `req.user.id` that id at every time before `run.now + 3600` seconds
and sends 403 at every time from `run.now + 3600` on. -/
theorem login_token_accepted (codec : Codec) (env : Env) (run : Run) (st st1 : Store)
    (body : LoginBody) (r : Response) (tok : Token)
    (hl : login env run st body = (st1, r)) (hr : r.status = 200)
    (htok : r.token = some tok)
    (hne : codec.encode tok ≠ "") (hsp : ' ' ∉ (codec.encode tok).data)
    (hdec : codec.decode (codec.encode tok) = some tok) :
    ∃ u rest, selectUsersByEmail st body.email = u :: rest ∧ tok.id = some u.id ∧
      ∀ now,
        (now < run.now + 3600 →
          authenticateToken codec env now (some ("Bearer " ++ codec.encode tok)) =
            .next { id := some u.id, iat := run.now, exp := run.now + 3600 })
        ∧ (run.now + 3600 ≤ now →
          authenticateToken codec env now (some ("Bearer " ++ codec.encode tok)) =
            .sendStatus 403) := by
  obtain ⟨u, rest, k, hsel, hk, hkne, _, hrr⟩ := login_ok_inv env run st st1 r body hl hr
  rw [hrr] at htok
  simp only [Option.some.injEq] at htok
  subst htok
  refine ⟨u, rest, hsel, rfl, ?_⟩
  intro now
  have hseg := bearerSegment_bearer _ hsp
  constructor
  · intro hlt
    have hlt2 : ¬ (now ≥ run.now + 3600) := by omega
    simp [authenticateToken, hseg, hne, jwtVerify, hk, hkne, hdec, Token.payload, hlt2]
  · intro hge
    simp [authenticateToken, hseg, hne, jwtVerify, hk, hkne, hdec, hge]

/-! ## Validation, creation, listing -/

/-- C16: signup with a missing or empty (falsy) name, email or password answers
400 'Please fill in all fields.', and login with a falsy email or password
answers 400 'Please provide email and password.'; the store is returned as it
was and the response has no token, under every configuration and whatever the
queries would have done, so none is consulted. -/
theorem missing_fields_400 (env : Env) (run : Run) (st : Store) (sb : SignupBody)
    (lb : LoginBody) :
    ((truthy sb.name = false ∨ truthy sb.email = false ∨ truthy sb.password = false) →
      signup env run st sb = (st, { status := 400, message := "Please fill in all fields." }))
    ∧ ((truthy lb.email = false ∨ truthy lb.password = false) →
      login env run st lb =
        (st, { status := 400, message := "Please provide email and password." })) := by
  constructor
  · intro h
    have hf : (!truthy sb.name || !truthy sb.email || !truthy sb.password) = true := by
      rcases h with h | h | h <;> simp [h]
    simp only [signup, hf, if_true]
  · intro h
    have hf : (!truthy lb.email || !truthy lb.password) = true := by
      rcases h with h | h <;> simp [h]
    simp only [login, hf, if_true]

/-- C17: POST /api/taskmanagement, when the token is produced and the insert
does not raise, answers 200 'Task added successfully.' and the task table is the
prior table followed by one new row with task_title, category, details,
priority_level and due_date taken from name, category, description, priority
and deadline; no duplicate check is made, so a second create with the same name
appends a second row with that title. -/
theorem taskmanagement_inserts_one (env : Env) (run run2 : Run) (st : Store)
    (body body2 : TaskBody) (tok tok2 : Token)
    (ht : generateToken env run none = .ok tok) (hq : run.dbFails 0 = false)
    (ht2 : generateToken env run2 none = .ok tok2) (hq2 : run2.dbFails 0 = false)
    (hname : body2.name = body.name) :
    taskmanagement env run st body =
      ({ st with
          taskmanagement := st.taskmanagement ++
            [{ id := st.taskSeq, task_title := prepareValue body.name,
               category := prepareValue body.category,
               details := prepareValue body.description,
               priority_level := prepareValue body.priority,
               due_date := prepareValue body.deadline,
               status := some "Pending", created_at := run.now }],
          taskSeq := st.taskSeq + 1 },
       { status := 200, message := "Task added successfully.", token := some tok })
    ∧ (taskmanagement env run2 (taskmanagement env run st body).1 body2).1.taskmanagement =
        st.taskmanagement ++
          [{ id := st.taskSeq, task_title := prepareValue body.name,
             category := prepareValue body.category,
             details := prepareValue body.description,
             priority_level := prepareValue body.priority,
             due_date := prepareValue body.deadline,
             status := some "Pending", created_at := run.now },
           { id := st.taskSeq + 1, task_title := prepareValue body.name,
             category := prepareValue body2.category,
             details := prepareValue body2.description,
             priority_level := prepareValue body2.priority,
             due_date := prepareValue body2.deadline,
             status := some "Pending", created_at := run2.now }] := by
  have h1 : ∀ (r : Run) (s : Store) (b : TaskBody) (t : Token),
      generateToken env r none = .ok t → r.dbFails 0 = false →
      taskmanagement env r s b =
        (insertTask r s (prepareValue b.name) (prepareValue b.category)
          (prepareValue b.description) (prepareValue b.priority)
          (prepareValue b.deadline) (some "Pending"),
         { status := 200, message := "Task added successfully.", token := some t }) := by
    intro r s b t hgt hqq
    simp [taskmanagement, hgt, query_ok r 0 _ hqq]
  constructor
  · rw [h1 run st body tok ht hq]
    rfl
  · rw [h1 run st body tok ht hq, h1 run2 _ body2 tok2 ht2 hq2]
    simp [insertTask, hname]

/-- C18: GET /api/getTaskmanagement, when the token is produced and the query
does not raise, answers 200 'Tasks fetched successfully.' with tasks the whole
task table, row for row in storage order, and returns the store as it was; a
second call then lists the same sequence. -/
theorem getTaskmanagement_lists_all (env : Env) (run run2 : Run) (st : Store)
    (tok tok2 : Token)
    (ht : generateToken env run none = .ok tok) (hq : run.dbFails 0 = false)
    (ht2 : generateToken env run2 none = .ok tok2) (hq2 : run2.dbFails 0 = false) :
    getTaskmanagement env run st =
      (st, { status := 200, message := "Tasks fetched successfully.", token := some tok,
             tasks := some st.taskmanagement })
    ∧ (getTaskmanagement env run2 (getTaskmanagement env run st).1).2.tasks =
        some st.taskmanagement := by
  have h1 : ∀ (r : Run) (t : Token), generateToken env r none = .ok t →
      r.dbFails 0 = false →
      getTaskmanagement env r st =
        (st, { status := 200, message := "Tasks fetched successfully.", token := some t,
               tasks := some st.taskmanagement }) := by
    intro r t hgt hqq
    simp [getTaskmanagement, hgt, query_ok r 0 _ hqq]
  constructor
  · exact h1 run tok ht hq
  · rw [h1 run tok ht hq, h1 run2 tok2 ht2 hq2]

/-! ## Frame of the users table -/

theorem exec_users_append (steps : List Step) (st : Store) :
    ∃ added, (exec st steps).signupusers = st.signupusers ++ added := by
  induction steps generalizing st with
  | nil => exact ⟨[], by simp [exec]⟩
  | cons step steps ih =>
    simp only [exec, List.foldl_cons]
    obtain ⟨added, hadd⟩ := ih (handle step.env step.run st step.req).1
    simp only [exec] at hadd
    rcases handle_users step.env step.run st step.req with hu | ⟨row, hu, _⟩
    · exact ⟨added, by rw [hadd, hu]⟩
    · exact ⟨row :: added, by rw [hadd, hu]; simp⟩

/-- C20: no operation updates or deletes a user row. Login, create, list,
update, delete and counts return the users table as it was; signup returns it
as it was or with one row appended after the existing rows; signup and login
return the task table as it was; and after any sequence of requests the users
table is the earlier one followed by the rows added since. -/
theorem users_never_modified (env : Env) (run : Run) (st : Store) :
    (∀ b, (login env run st b).1.signupusers = st.signupusers)
    ∧ (∀ b, (taskmanagement env run st b).1.signupusers = st.signupusers)
    ∧ (getTaskmanagement env run st).1.signupusers = st.signupusers
    ∧ (∀ b, (updateTaskmanagement run st b).1.signupusers = st.signupusers)
    ∧ (∀ taskId, (deleteTaskmanagement run st taskId).1.signupusers = st.signupusers)
    ∧ (getCounts env run st).1.signupusers = st.signupusers
    ∧ (∀ b, (signup env run st b).1.signupusers = st.signupusers ∨
        ∃ row, (signup env run st b).1.signupusers = st.signupusers ++ [row])
    ∧ (∀ b, (signup env run st b).1.taskmanagement = st.taskmanagement)
    ∧ (∀ b, (login env run st b).1.taskmanagement = st.taskmanagement)
    ∧ (∀ steps, ∃ added, (exec st steps).signupusers = st.signupusers ++ added) := by
  refine ⟨?_, ?_, ?_, ?_, ?_, ?_, ?_, ?_, ?_, ?_⟩
  · intro b; rw [login_store]
  · intro b; exact taskmanagement_users env run st b
  · rw [getTaskmanagement_store]
  · intro b
    rcases updateTaskmanagement_store run st b with h | h
    · rw [h]
    · rw [h]; rfl
  · intro taskId; exact deleteTaskmanagement_users run st taskId
  · rw [getCounts_store]
  · intro b
    rcases signup_store env run st b with h | ⟨h, _, _, hst⟩
    · left; rw [h]
    · right; exact ⟨_, by rw [hst]; rfl⟩
  · intro b
    rcases signup_store env run st b with h | ⟨h, _, _, hst⟩
    · rw [h]
    · rw [hst]; rfl
  · intro b; rw [login_store]
  · intro steps; exact exec_users_append steps st

/-! ## Failures -/

/-- C19: every raising call inside a handler ends the request with status 500
and the route's fixed message (no other field in the body), the store being the
one reached before the failing call. Listed per route and per call: the lookup,
the hash, the insert and the token of signup (a token failure comes after the
insert, whose row stays); the lookup, the compare and the token of login; the
token and the query of create, list and counts; the lookup and the update of
update; the delete. -/
theorem failures_are_500 (env : Env) (run : Run) (st : Store) (sb : SignupBody)
    (lb : LoginBody) (tb : TaskBody) (ub : UpdateBody) (taskId : Nat) :
    -- signup
    ((truthy sb.name = true ∧ truthy sb.email = true ∧ truthy sb.password = true) →
      (run.dbFails 0 = true →
        signup env run st sb = (st, { status := 500, message := "Internal server error." }))
      ∧ (run.dbFails 0 = false → selectUsersByEmail st sb.email = [] →
          (bcryptHash env sb.password 10 = .error () →
            signup env run st sb = (st, { status := 500, message := "Internal server error." }))
          ∧ (∀ h, bcryptHash env sb.password 10 = .ok h →
              (run.dbFails 1 = true →
                signup env run st sb =
                  (st, { status := 500, message := "Internal server error." }))
              ∧ (run.dbFails 1 = false →
                  generateToken env run (some st.userSeq) = .error () →
                  signup env run st sb =
                    ((insertUser run st sb.name sb.email h).1,
                     { status := 500, message := "Internal server error." })))))
    -- login
    ∧ ((truthy lb.email = true ∧ truthy lb.password = true) →
      (run.dbFails 0 = true →
        login env run st lb = (st, { status := 500, message := "Internal server error." }))
      ∧ (∀ u rest, run.dbFails 0 = false → selectUsersByEmail st lb.email = u :: rest →
          (bcryptCompare env lb.password u.password = .error () →
            login env run st lb = (st, { status := 500, message := "Internal server error." }))
          ∧ (bcryptCompare env lb.password u.password = .ok true →
              generateToken env run (some u.id) = .error () →
              login env run st lb =
                (st, { status := 500, message := "Internal server error." }))))
    -- create
    ∧ (generateToken env run none = .error () →
        taskmanagement env run st tb =
          (st, { status := 500, message := "An error occurred while adding the task." }))
    ∧ (∀ tok, generateToken env run none = .ok tok → run.dbFails 0 = true →
        taskmanagement env run st tb =
          (st, { status := 500, message := "An error occurred while adding the task." }))
    -- list
    ∧ (generateToken env run none = .error () →
        getTaskmanagement env run st =
          (st, { status := 500, message := "An error occurred while fetching the tasks." }))
    ∧ (∀ tok, generateToken env run none = .ok tok → run.dbFails 0 = true →
        getTaskmanagement env run st =
          (st, { status := 500, message := "An error occurred while fetching the tasks." }))
    -- update
    ∧ (run.dbFails 0 = true →
        updateTaskmanagement run st ub =
          (st, { status := 500, message := "An error occurred while updating the task." }))
    ∧ (run.dbFails 0 = false → selectTasksByTitle st ub.taskname ≠ [] →
        run.dbFails 1 = true →
        updateTaskmanagement run st ub =
          (st, { status := 500, message := "An error occurred while updating the task." }))
    -- delete
    ∧ (run.dbFails 0 = true →
        deleteTaskmanagement run st taskId =
          (st, { status := 500, message := "An error occurred while deleting the task." }))
    -- counts
    ∧ (generateToken env run none = .error () →
        getCounts env run st =
          (st, { status := 500,
                 message := "An error occurred while fetching the task counts." }))
    ∧ (∀ tok, generateToken env run none = .ok tok → run.dbFails 0 = true →
        getCounts env run st =
          (st, { status := 500,
                 message := "An error occurred while fetching the task counts." })) := by
  refine ⟨?_, ?_, ?_, ?_, ?_, ?_, ?_, ?_, ?_, ?_, ?_⟩
  · rintro ⟨hn, he, hp⟩
    refine ⟨?_, ?_⟩
    · intro h0
      simp [signup, hn, he, hp, query_fail run 0 _ h0]
    · intro h0 hsel
      refine ⟨?_, ?_⟩
      · intro hh
        simp [signup, hn, he, hp, query_ok run 0 _ h0, hsel, hh]
      · intro h hh
        refine ⟨?_, ?_⟩
        · intro h1
          simp [signup, hn, he, hp, query_ok run 0 _ h0, hsel, hh, query_fail run 1 _ h1]
        · intro h1 ht
          simp [signup, hn, he, hp, query_ok run 0 _ h0, hsel, hh, query_ok run 1 _ h1,
            insertUser, ht]
  · rintro ⟨he, hp⟩
    refine ⟨?_, ?_⟩
    · intro h0
      simp [login, he, hp, query_fail run 0 _ h0]
    · intro u rest h0 hsel
      refine ⟨?_, ?_⟩
      · intro hc
        simp [login, he, hp, query_ok run 0 _ h0, hsel, hc]
      · intro hc ht
        simp [login, he, hp, query_ok run 0 _ h0, hsel, hc, ht]
  · intro ht
    simp [taskmanagement, ht]
  · intro tok ht h0
    simp [taskmanagement, ht, query_fail run 0 _ h0]
  · intro ht
    simp [getTaskmanagement, ht]
  · intro tok ht h0
    simp [getTaskmanagement, ht, query_fail run 0 _ h0]
  · intro h0
    simp [updateTaskmanagement, query_fail run 0 _ h0]
  · intro h0 hne h1
    simp [updateTaskmanagement, query_ok run 0 _ h0, hne, query_fail run 1 _ h1]
  · intro h0
    simp [deleteTaskmanagement, query_fail run 0 _ h0]
  · intro ht
    simp [getCounts, ht]
  · intro tok ht h0
    simp [getCounts, ht, query_fail run 0 _ h0]

/-! ## Update response -/

/-- C21: when the rows titled taskname are `t0 :: rest` (in storage order) and
neither query raises, the 200 response carries as updatedTask one row only,
the first of them after the update: its id, title and creation time are those
of `t0`, its task_title equals taskname, and its category, details,
priority_level, due_date and status are the request's values; the response has
no other task data, so the rows of `rest` do not appear in it. -/
theorem updateTaskmanagement_returns_first (run : Run) (st : Store) (body : UpdateBody)
    (t0 : TaskRow) (rest : List TaskRow)
    (hq0 : run.dbFails 0 = false) (hq1 : run.dbFails 1 = false)
    (hsel : selectTasksByTitle st body.taskname = t0 :: rest) :
    (updateTaskmanagement run st body).2 =
      { status := 200, message := "Task updated successfully.",
        updatedTask := some
          { id := t0.id, task_title := t0.task_title,
            category := prepareValue body.category,
            details := prepareValue body.description,
            priority_level := prepareValue body.priority,
            due_date := prepareValue body.deadline,
            status := prepareValue body.status,
            created_at := t0.created_at } }
    ∧ t0.task_title = prepareValue body.taskname
    ∧ (updateTaskmanagement run st body).2.tasks = none := by
  have hmem : t0 ∈ selectTasksByTitle st body.taskname := by rw [hsel]; exact List.mem_cons_self _ _
  have hm : sqlEq t0.task_title (prepareValue body.taskname) = true := by
    simp only [selectTasksByTitle, List.mem_filter] at hmem
    exact hmem.2
  have htitle : t0.task_title = prepareValue body.taskname := by
    obtain ⟨x, h1, h2⟩ := (sqlEq_eq_true_iff _ _).1 hm
    rw [h1, h2]
  have hsel2 : st.taskmanagement.filter
      (fun t => sqlEq t.task_title (prepareValue body.taskname)) = t0 :: rest := hsel
  have hresp : (updateTaskmanagement run st body).2 =
      { status := 200, message := "Task updated successfully.",
        updatedTask := some
          { id := t0.id, task_title := t0.task_title,
            category := prepareValue body.category,
            details := prepareValue body.description,
            priority_level := prepareValue body.priority,
            due_date := prepareValue body.deadline,
            status := prepareValue body.status,
            created_at := t0.created_at } } := by
    simp [updateTaskmanagement, query_ok run 0 _ hq0, query_ok run 1 _ hq1, hsel,
      updateTasksByTitle, hsel2, setColumns]
  refine ⟨hresp, htitle, ?_⟩
  rw [hresp]

/-! ## Frontend -/

theorem startsWith_iff (s sub : List Char) :
    startsWith s sub = true ↔ ∃ post, s = sub ++ post := by
  induction sub generalizing s with
  | nil => simp [startsWith]
  | cons d ds ih =>
    cases s with
    | nil => simp [startsWith]
    | cons c cs =>
      simp only [startsWith, Bool.and_eq_true, beq_iff_eq, ih, List.cons_append,
        List.cons.injEq]
      constructor
      · rintro ⟨hc, post, hp⟩
        exact ⟨post, hc, hp⟩
      · rintro ⟨post, hc, hp⟩
        exact ⟨hc, post, hp⟩

theorem includes_iff (s sub : List Char) :
    includes s sub = true ↔ ∃ pre post, s = pre ++ sub ++ post := by
  induction s with
  | nil =>
    simp only [includes, startsWith_iff]
    constructor
    · rintro ⟨post, hp⟩
      exact ⟨[], post, by simpa using hp⟩
    · rintro ⟨pre, post, hp⟩
      have h1 : pre ++ sub ++ post = [] := hp.symm
      simp only [List.append_eq_nil] at h1
      exact ⟨[], by simp [h1.1.2]⟩
  | cons c cs ih =>
    simp only [includes, Bool.or_eq_true, startsWith_iff, ih]
    constructor
    · rintro (⟨post, hp⟩ | ⟨pre, post, hp⟩)
      · exact ⟨[], post, by simpa using hp⟩
      · exact ⟨c :: pre, post, by simp [hp]⟩
    · rintro ⟨pre, post, hp⟩
      cases pre with
      | nil => left; exact ⟨post, by simpa using hp⟩
      | cons a pre =>
        right
        simp only [List.cons_append, List.cons.injEq] at hp
        exact ⟨pre, post, hp.2⟩

theorem includes_nil (s : List Char) : includes s [] = true :=
  (includes_iff s []).2 ⟨[], s, by simp⟩

theorem filterTasks_of_strings (toLowerCase : String → String) (search : String)
    (tasks : List ClientTask)
    (hstr : ∀ t ∈ tasks, (∃ a, t.task_title = some a) ∧ (∃ b, t.category = some b)) :
    filterTasks toLowerCase search tasks =
      .ok (tasks.filter (fun t =>
        match t.task_title, t.category with
        | some a, some b =>
          includes (toLowerCase a).data (toLowerCase search).data ||
            includes (toLowerCase b).data (toLowerCase search).data
        | _, _ => false)) := by
  induction tasks with
  | nil => rfl
  | cons t ts ih =>
    obtain ⟨⟨a, ha⟩, ⟨b, hb⟩⟩ := hstr t (List.mem_cons_self _ _)
    have ih1 := ih (fun x hx => hstr x (List.mem_cons_of_mem _ hx))
    by_cases h1 : includes (toLowerCase a).data (toLowerCase search).data = true
    · simp [filterTasks, matchesSearch, ha, hb, h1, ih1, List.filter_cons]
    · simp only [Bool.not_eq_true] at h1
      by_cases h2 : includes (toLowerCase b).data (toLowerCase search).data = true
      · simp [filterTasks, matchesSearch, ha, hb, h1, h2, ih1, List.filter_cons]
      · simp only [Bool.not_eq_true] at h2
        simp [filterTasks, matchesSearch, ha, hb, h1, h2, ih1, List.filter_cons]

/-- C22: when every task has a string task_title and a string category,
`filteredTasks` does not raise and is the list of the tasks, in their order,
whose lower-cased title or lower-cased category has the lower-cased search
string as a substring: it is a sublist of `tasks`, a task of `tasks` is in it
exactly when one of the two contains the search, and with the empty search
(whose lower-casing is empty) it is `tasks` itself. -/
theorem filteredTasks_search (toLowerCase : String → String) (page : TaskPage)
    (hlow : toLowerCase "" = "")
    (hstr : ∀ t ∈ page.tasks, (∃ a, t.task_title = some a) ∧ (∃ b, t.category = some b)) :
    ∃ l, filteredTasks toLowerCase page = .ok l
      ∧ l.Sublist page.tasks
      ∧ (∀ t ∈ page.tasks, t ∈ l ↔
          ∃ a b, t.task_title = some a ∧ t.category = some b ∧
            ((∃ pre post, (toLowerCase a).data =
                pre ++ (toLowerCase page.search).data ++ post)
             ∨ (∃ pre post, (toLowerCase b).data =
                pre ++ (toLowerCase page.search).data ++ post)))
      ∧ (page.search = "" → l = page.tasks) := by
  refine ⟨_, filterTasks_of_strings toLowerCase page.search page.tasks hstr,
    List.filter_sublist _, ?_, ?_⟩
  · intro t ht
    obtain ⟨⟨a, ha⟩, ⟨b, hb⟩⟩ := hstr t ht
    simp only [List.mem_filter, ht, true_and, ha, hb, Bool.or_eq_true, includes_iff]
    constructor
    · intro h
      exact ⟨a, b, rfl, rfl, h⟩
    · rintro ⟨a1, b1, h1, h2, h⟩
      simp only [Option.some.injEq] at h1 h2
      subst h1; subst h2
      exact h
  · intro hs
    rw [List.filter_eq_self]
    intro t ht
    obtain ⟨⟨a, ha⟩, ⟨b, hb⟩⟩ := hstr t ht
    simp [ha, hb, hs, hlow, includes_nil]

/-- C23: `handleSignUp` with password different from confirmPassword only
alerts 'Passwords do not match.' (no POST, no navigation); with the two equal
it sends one POST carrying name, email and password, and nothing it does
afterwards is another POST. -/
theorem handleSignUp_checks_confirmation (form : SignUpForm)
    (send : SignupBody → Option Response) :
    (form.password ≠ form.confirmPassword →
      handleSignUp form send = [.preventDefault, .alert "Passwords do not match."])
    ∧ (form.password = form.confirmPassword →
        ∃ after, handleSignUp form send =
            .preventDefault ::
              .postSignUp form.name form.email form.password form.confirmPassword :: after
          ∧ ∀ e ∈ after, ∀ a b c d, e ≠ .postSignUp a b c d) := by
  constructor
  · intro h
    simp [handleSignUp, h]
  · intro h
    unfold handleSignUp
    simp only [h, ne_eq, not_true_eq_false, if_false]
    refine ⟨_, rfl, ?_⟩
    intro e he a b c d
    cases hs : send { name := .str form.name, email := .str form.email,
                      password := .str form.confirmPassword } with
    | none =>
      rw [hs] at he
      simp only [List.mem_singleton] at he
      rw [he]; simp
    | some response =>
      rw [hs] at he
      simp only at he
      split at he
      · split at he
        · rw [List.mem_cons, List.mem_singleton] at he
          rcases he with he | he <;> rw [he] <;> simp
        · rw [List.mem_singleton] at he
          rw [he]; simp
      · rw [List.mem_singleton] at he
        rw [he]; simp

/-- C25, evaluated on the code: with the Priority selector on 'High' and an
empty search, `filteredTasks` of `samplePage` is the whole list, including the
two rows whose priority_level is 'Low'; and selecting another priority does not
change it. -/
theorem filteredTasks_ignores_priority :
    samplePage.priorityFilter = "High"
    ∧ filteredTasks asciiLower samplePage = .ok samplePage.tasks
    ∧ (samplePage.tasks.map (fun t => t.priority_level)) = [some "High", some "Low", some "Low"]
    ∧ filteredTasks asciiLower { samplePage with priorityFilter := "" } =
        filteredTasks asciiLower samplePage := by
  refine ⟨rfl, ?_, ?_, rfl⟩
  · rfl
  · decide

/-- C26, evaluated on the code: row 1 is edited (details 'later', priority
'Low') and saved; the server answers 200 and its updatedTask has details
'later' and priority_level 'Low', but the local task with id 1 still has
details 'Q1' and priority_level 'High': the edited values went to the keys
description and priority. -/
theorem handleSave_stale_columns :
    (Option.map (fun r => r.status) (sampleSend (updatedTaskData editingPage))) = some 200
    ∧ (Option.map (fun r => (Option.map (fun t => (t.details, t.priority_level)) r.updatedTask))
        (sampleSend (updatedTaskData editingPage))) = some (some (some "later", some "Low"))
    ∧ ((handleSave editingPage 1 sampleSend).1.tasks.filter (fun t => decide (t.id = 1))).map
        (fun t => (t.details, t.priority_level, t.description, t.priority)) =
        [(some "Q1", some "High", some (some "later"), some (some "Low"))] := by
  refine ⟨?_, ?_, ?_⟩ <;> decide

/-- C30, evaluated on the code: on the empty store a create with an empty body
succeeds and stores NULL as task_title; the list then returned, fetched by the
page, makes `filteredTasks` raise for the empty search. -/
theorem filteredTasks_raises_on_null_title :
    (taskmanagement demoEnv demoRun Store.empty emptyBody).2.status = 200
    ∧ (getTaskmanagement demoEnv demoRun
        (taskmanagement demoEnv demoRun Store.empty emptyBody).1).2.tasks =
        some [{ id := 1, task_title := none, category := none, details := none,
                priority_level := none, due_date := none, status := some "Pending",
                created_at := 1000 }]
    ∧ filteredTasks asciiLower
        (fetchTasks samplePage
          (some (getTaskmanagement demoEnv demoRun
            (taskmanagement demoEnv demoRun Store.empty emptyBody).1).2)).1 = .error () := by
  refine ⟨?_, ?_, ?_⟩
  · decide
  · decide
  · rfl

/-! ## Presence checks -/

/-- C24 refuted as stated: on the empty store, a create whose title is the
empty string, and one whose body has no field at all, are answered 200 and
each inserts a row. -/
theorem taskmanagement_empty_title_inserted :
    (taskmanagement demoEnv demoRun Store.empty
        { emptyBody with name := .str "" }).2.status = 200
    ∧ ((taskmanagement demoEnv demoRun Store.empty
        { emptyBody with name := .str "" }).1.taskmanagement.map
          (fun t => t.task_title)) = [some ""]
    ∧ (taskmanagement demoEnv demoRun Store.empty emptyBody).2.status = 200
    ∧ ((taskmanagement demoEnv demoRun Store.empty emptyBody).1.taskmanagement.map
          (fun t => t.task_title)) = [none] := by
  refine ⟨?_, ?_, ?_, ?_⟩ <;> decide

/-- C24 as amended: signup and login check the presence of their fields before
touching the store (400, store unchanged). Create makes no such check: its
status is always 200 or 500, never a client error, and whenever the token is
produced and the insert does not raise it answers 200 and appends the row,
whatever the title (missing and empty included). -/
theorem presence_checked_on_credentials_only (env : Env) (run : Run) (st : Store)
    (sb : SignupBody) (lb : LoginBody) (tb : TaskBody) :
    ((truthy sb.name = false ∨ truthy sb.email = false ∨ truthy sb.password = false) →
      (signup env run st sb).2.status = 400 ∧ (signup env run st sb).1 = st)
    ∧ ((truthy lb.email = false ∨ truthy lb.password = false) →
      (login env run st lb).2.status = 400 ∧ (login env run st lb).1 = st)
    ∧ ((taskmanagement env run st tb).2.status = 200 ∨
        (taskmanagement env run st tb).2.status = 500)
    ∧ (∀ tok, generateToken env run none = .ok tok → run.dbFails 0 = false →
        (taskmanagement env run st tb).2.status = 200
        ∧ (taskmanagement env run st tb).1.taskmanagement = st.taskmanagement ++
            [{ id := st.taskSeq, task_title := prepareValue tb.name,
               category := prepareValue tb.category,
               details := prepareValue tb.description,
               priority_level := prepareValue tb.priority,
               due_date := prepareValue tb.deadline,
               status := some "Pending", created_at := run.now }]) := by
  refine ⟨?_, ?_, ?_, ?_⟩
  · intro h
    have hf : (!truthy sb.name || !truthy sb.email || !truthy sb.password) = true := by
      rcases h with h | h | h <;> simp [h]
    simp only [signup, hf, if_true, and_self]
  · intro h
    have hf : (!truthy lb.email || !truthy lb.password) = true := by
      rcases h with h | h <;> simp [h]
    simp only [login, hf, if_true, and_self]
  · unfold taskmanagement query
    cases generateToken env run none with
    | error e => right; rfl
    | ok tok =>
      by_cases h0 : run.dbFails 0 = true
      · right; simp [h0]
      · left; simp [h0]
  · intro tok ht h0
    simp [taskmanagement, ht, query_ok run 0 _ h0, insertTask]

/-! ## Scheme word and anonymous tokens -/

theorem splitOnSpace_ne_nil (w : List Char) : splitOnSpace w ≠ [] := by
  induction w with
  | nil => simp [splitOnSpace]
  | cons c cs ih =>
    by_cases hc : c = ' '
    · simp [splitOnSpace, hc]
    · cases h : splitOnSpace cs with
      | nil => exact absurd h ih
      | cons a as => simp [splitOnSpace, hc, h]

theorem splitOnSpace_append_space (x rest : List Char) (h : ' ' ∉ x) :
    splitOnSpace (x ++ ' ' :: rest) = x :: splitOnSpace rest := by
  induction x with
  | nil => simp [splitOnSpace]
  | cons c cs ih =>
    have hc : c ≠ ' ' := fun e => h (by rw [e]; exact List.mem_cons_self _ _)
    have hcs : ' ' ∉ cs := fun e => h (List.mem_cons_of_mem _ e)
    simp [splitOnSpace, hc, ih hcs]

theorem bearerSegment_scheme (x t : String) (h : ' ' ∉ x.data) :
    bearerSegment (some (x ++ " " ++ t)) =
      ((splitOnSpace t.data).head?).map String.mk := by
  have hdata : (x ++ " " ++ t).data = x.data ++ ' ' :: t.data := by
    simp [String.data_append]
  have hne : x ++ " " ++ t ≠ "" := by
    intro e
    have := congrArg String.data e
    rw [hdata] at this
    simp at this
  simp only [bearerSegment, hne, if_false, hdata, splitOnSpace_append_space _ _ h]
  cases hs : splitOnSpace t.data with
  | nil => exact absurd hs (splitOnSpace_ne_nil _)
  | cons a as => simp

/-- C28: the scheme word is never looked at. For a first word `x` without
spaces and any `t`, the header `x t` is decided exactly as `Bearer t`; a header
without any space (the bare token, or 'Bearer') is answered 401; and a header
`x`, two spaces, `t` is answered 401, whatever `t` is. -/
theorem authenticateToken_scheme_unchecked (codec : Codec) (env : Env) (now : Nat)
    (x t : String) (hx : ' ' ∉ x.data) :
    authenticateToken codec env now (some (x ++ " " ++ t)) =
      authenticateToken codec env now (some ("Bearer" ++ " " ++ t))
    ∧ authenticateToken codec env now (some x) = .sendStatus 401
    ∧ authenticateToken codec env now (some (x ++ " " ++ (" " ++ t))) = .sendStatus 401 := by
  refine ⟨?_, ?_, ?_⟩
  · have h1 := bearerSegment_scheme x t hx
    have h2 := bearerSegment_scheme "Bearer" t (by decide)
    simp only [authenticateToken, h1, h2]
  · by_cases he : x = ""
    · simp [authenticateToken, bearerSegment, he]
    · simp [authenticateToken, bearerSegment, he, splitOnSpace_of_no_space x.data hx]
  · have h1 := bearerSegment_scheme x (" " ++ t) hx
    have hd : (" " ++ t).data = ' ' :: t.data := by simp [String.data_append]
    simp [authenticateToken, h1, hd, splitOnSpace]

/-- C29: the token of a create, list or counts response is signed over no id:
either there is no token (a 500), or it is the token with no id issued at the
clock reading with the configured secret; and it is the same for any two
stores, bodies and Authorization headers. -/
theorem task_tokens_anonymous (env : Env) (run : Run) (st st2 : Store) (b b2 : TaskBody)
    (a a2 : Option String) :
    ((taskmanagement env run st b).2.token = none ∨
      ∃ k, env.jwtSecret = some k ∧ (taskmanagement env run st b).2.token =
        some { id := none, iat := run.now, exp := run.now + 3600, key := k })
    ∧ ((getTaskmanagement env run st).2.token = none ∨
      ∃ k, env.jwtSecret = some k ∧ (getTaskmanagement env run st).2.token =
        some { id := none, iat := run.now, exp := run.now + 3600, key := k })
    ∧ ((getCounts env run st).2.token = none ∨
      ∃ k, env.jwtSecret = some k ∧ (getCounts env run st).2.token =
        some { id := none, iat := run.now, exp := run.now + 3600, key := k })
    ∧ (handle env run st { authorization := a, op := .taskmanagement b }).2.token =
        (handle env run st2 { authorization := a2, op := .taskmanagement b2 }).2.token
    ∧ (handle env run st { authorization := a, op := .getTaskmanagement }).2.token =
        (handle env run st2 { authorization := a2, op := .getTaskmanagement }).2.token
    ∧ (handle env run st { authorization := a, op := .getCounts }).2.token =
        (handle env run st2 { authorization := a2, op := .getCounts }).2.token := by
  have hT : ∀ (s : Store) (c : TaskBody), (taskmanagement env run s c).2.token =
      taskToken env run := by
    intro s c
    unfold taskmanagement taskToken query
    cases generateToken env run none with
    | error e => rfl
    | ok tok => by_cases h0 : run.dbFails 0 = true <;> simp [h0]
  have hG : ∀ (s : Store), (getTaskmanagement env run s).2.token = taskToken env run := by
    intro s
    unfold getTaskmanagement taskToken query
    cases generateToken env run none with
    | error e => rfl
    | ok tok => by_cases h0 : run.dbFails 0 = true <;> simp [h0]
  have hC : ∀ (s : Store), (getCounts env run s).2.token = taskToken env run := by
    intro s
    unfold getCounts taskToken query
    cases generateToken env run none with
    | error e => rfl
    | ok tok => by_cases h0 : run.dbFails 0 = true <;> simp [h0]
  have hval : taskToken env run = none ∨
      ∃ k, env.jwtSecret = some k ∧ taskToken env run =
        some { id := none, iat := run.now, exp := run.now + 3600, key := k } := by
    unfold taskToken generateToken jwtSign
    cases env.jwtSecret with
    | none => left; rfl
    | some k =>
      by_cases hk : k = ""
      · left; simp [hk]
      · by_cases h0 : run.dbFails 0 = true
        · left; simp [hk, h0]
        · right; exact ⟨k, rfl, by simp [hk, h0]⟩
  refine ⟨?_, ?_, ?_, ?_, ?_, ?_⟩
  · rw [hT]; exact hval
  · rw [hG]; exact hval
  · rw [hC]; exact hval
  · show (taskmanagement env run st b).2.token = (taskmanagement env run st2 b2).2.token
    rw [hT, hT]
  · show (getTaskmanagement env run st).2.token = (getTaskmanagement env run st2).2.token
    rw [hG, hG]
  · show (getCounts env run st).2.token = (getCounts env run st2).2.token
    rw [hC, hC]

/-! ## Editing the title -/

theorem prepareValue_jsonOfCell (c : Sql) : prepareValue (jsonOfCell c) = c := by
  cases c <;> rfl

theorem updateTaskmanagement_titles (run : Run) (st : Store) (body : UpdateBody) :
    (updateTaskmanagement run st body).1.taskmanagement.map (fun r => r.task_title) =
      st.taskmanagement.map (fun r => r.task_title) := by
  rcases updateTaskmanagement_store run st body with h | h
  · rw [h]
  · rw [h]
    simp only [updateTasksByTitle, List.map_map]
    apply List.map_congr_left
    intro r _
    simp only [Function.comp]
    split <;> rfl

theorem handleSave_titles (page : TaskPage) (taskId : Nat)
    (send : UpdateBody → Option Response) :
    (handleSave page taskId send).1.tasks.map (fun c => c.task_title) =
      page.tasks.map (fun c => c.task_title) := by
  unfold handleSave
  cases send (updatedTaskData page) with
  | none => rfl
  | some response =>
    by_cases h : axiosResolves response.status = true
    · simp only [h, if_true, List.map_map]
      apply List.map_congr_left
      intro c _
      simp only [Function.comp]
      split <;> rfl
    · simp [h]

theorem updateTaskmanagement_eq_404 (run : Run) (st : Store) (body : UpdateBody)
    (hq0 : run.dbFails 0 = false) (hnone : selectTasksByTitle st body.taskname = []) :
    updateTaskmanagement run st body =
      (st, { status := 404, message := "Task not found" }) := by
  simp [updateTaskmanagement, query_ok run 0 _ hq0, hnone]

theorem updateTaskmanagement_eq_200 (run : Run) (st : Store) (body : UpdateBody)
    (hq0 : run.dbFails 0 = false) (hq1 : run.dbFails 1 = false)
    (hsome : selectTasksByTitle st body.taskname ≠ []) :
    updateTaskmanagement run st body =
      ((updateTasksByTitle st (prepareValue body.category)
          (prepareValue body.description) (prepareValue body.priority)
          (prepareValue body.deadline) (prepareValue body.status)
          (prepareValue body.taskname)).1,
       { status := 200, message := "Task updated successfully.",
         updatedTask := (updateTasksByTitle st (prepareValue body.category)
          (prepareValue body.description) (prepareValue body.priority)
          (prepareValue body.deadline) (prepareValue body.status)
          (prepareValue body.taskname)).2.head? }) := by
  simp [updateTaskmanagement, query_ok run 0 _ hq0, query_ok run 1 _ hq1, hsome]

theorem handleSave_resolved (page : TaskPage) (taskId : Nat)
    (send : UpdateBody → Option Response) (response : Response)
    (hs : send (updatedTaskData page) = some response)
    (hr : axiosResolves response.status = true) :
    handleSave page taskId send =
      ({ page with
          tasks := page.tasks.map
            (fun task => if task.id = taskId then spreadUpdate task page else task),
          editingTask := none },
       [.putUpdate (updatedTaskData page), .alert "Task successfully updated!"]) := by
  simp [handleSave, hs, hr]

theorem handleSave_rejected (page : TaskPage) (taskId : Nat)
    (send : UpdateBody → Option Response) (response : Response)
    (hs : send (updatedTaskData page) = some response)
    (hr : axiosResolves response.status = false) :
    handleSave page taskId send =
      (page, [.putUpdate (updatedTaskData page), .alert "Failed to update task"]) := by
  simp [handleSave, hs, hr]

/-- C27: editing the title in the table never renames a task. With the title
cell edited from `T` (the title of row `t`) to a different `T1`, `handleSave`
issues one PUT whose body is `updatedTaskData`, with taskname `T1`, followed by
one alert, and consults the server on that body only. If no row is titled `T1`
the server answers 404 and the store is unchanged, and `handleSave` against
that server leaves the page as it was and alerts the failure; if some row is,
the answer is 200, the rows titled `T1` get the edited values while row `t`
stays in the table as it was, and `handleSave` spreads the edited cells over
the local task with the saved id. In every case, failing runs included, the
task_title of every row is what it was, and so are the task_title fields of the
local list after `handleSave`. -/
theorem edited_title_never_renames (run : Run) (st : Store) (page : TaskPage) (taskId : Nat)
    (send : UpdateBody → Option Response) (t : TaskRow) (T T1 : String)
    (hq0 : run.dbFails 0 = false) (hq1 : run.dbFails 1 = false)
    (ht : t ∈ st.taskmanagement) (htitle : t.task_title = some T)
    (hedit : page.taskTitle = some T1) (hne : T1 ≠ T) :
    (updatedTaskData page).taskname = .str T1
    ∧ ((∀ r ∈ st.taskmanagement, r.task_title ≠ some T1) →
        updateTaskmanagement run st (updatedTaskData page) =
          (st, { status := 404, message := "Task not found" }))
    ∧ ((∃ r ∈ st.taskmanagement, r.task_title = some T1) →
        (updateTaskmanagement run st (updatedTaskData page)).2.status = 200
        ∧ t ∈ (updateTaskmanagement run st (updatedTaskData page)).1.taskmanagement
        ∧ ∀ r ∈ (updateTaskmanagement run st (updatedTaskData page)).1.taskmanagement,
            r.task_title = some T1 →
              r.category = page.category ∧ r.details = page.details ∧
              r.priority_level = page.priority ∧ r.due_date = page.dueDateTime ∧
              r.status = page.status)
    ∧ (updateTaskmanagement run st (updatedTaskData page)).1.taskmanagement.map
          (fun r => r.task_title) = st.taskmanagement.map (fun r => r.task_title)
    ∧ (handleSave page taskId send).1.tasks.map (fun c => c.task_title) =
        page.tasks.map (fun c => c.task_title)
    ∧ (∃ msg, (handleSave page taskId send).2 =
        [.putUpdate (updatedTaskData page), .alert msg])
    ∧ (∀ send2 : UpdateBody → Option Response,
        send2 (updatedTaskData page) = send (updatedTaskData page) →
          handleSave page taskId send2 = handleSave page taskId send)
    ∧ ((∀ r ∈ st.taskmanagement, r.task_title ≠ some T1) →
        handleSave page taskId (fun body => some (updateTaskmanagement run st body).2) =
          (page, [.putUpdate (updatedTaskData page), .alert "Failed to update task"]))
    ∧ ((∃ r ∈ st.taskmanagement, r.task_title = some T1) →
        handleSave page taskId (fun body => some (updateTaskmanagement run st body).2) =
          ({ page with
              tasks := page.tasks.map
                (fun task => if task.id = taskId then spreadUpdate task page else task),
              editingTask := none },
           [.putUpdate (updatedTaskData page), .alert "Task successfully updated!"])) := by
  have hname : (updatedTaskData page).taskname = .str T1 := by
    simp [updatedTaskData, hedit, jsonOfCell]
  have hprep : prepareValue (updatedTaskData page).taskname = some T1 := by
    rw [hname]; rfl
  have h404 : (∀ r ∈ st.taskmanagement, r.task_title ≠ some T1) →
      updateTaskmanagement run st (updatedTaskData page) =
        (st, { status := 404, message := "Task not found" }) := by
    intro hno
    apply updateTaskmanagement_eq_404 run st _ hq0
    simp only [selectTasksByTitle, List.filter_eq_nil_iff, hprep]
    intro r hr hs
    obtain ⟨x, h1, h2⟩ := (sqlEq_eq_true_iff _ _).1 hs
    simp only [Option.some.injEq] at h2
    exact hno r hr (by rw [h1, h2])
  have h200 : (∃ r ∈ st.taskmanagement, r.task_title = some T1) →
      updateTaskmanagement run st (updatedTaskData page) =
        ((updateTasksByTitle st page.category page.details page.priority page.dueDateTime
            page.status (some T1)).1,
         { status := 200, message := "Task updated successfully.",
           updatedTask := (updateTasksByTitle st page.category page.details page.priority
             page.dueDateTime page.status (some T1)).2.head? }) := by
    rintro ⟨r0, hr0, hr0t⟩
    have hmem : r0 ∈ selectTasksByTitle st (updatedTaskData page).taskname := by
      simp [selectTasksByTitle, List.mem_filter, hr0, hprep, hr0t, sqlEq]
    have hnn : selectTasksByTitle st (updatedTaskData page).taskname ≠ [] := by
      intro h; rw [h] at hmem; simp at hmem
    rw [updateTaskmanagement_eq_200 run st _ hq0 hq1 hnn, hprep]
    simp [updatedTaskData, prepareValue_jsonOfCell]
  refine ⟨hname, h404, ?_, updateTaskmanagement_titles run st _,
    handleSave_titles page taskId send, ?_, ?_, ?_, ?_⟩
  · intro hex
    rw [h200 hex]
    refine ⟨rfl, ?_, ?_⟩
    · simp only [updateTasksByTitle, List.mem_map]
      refine ⟨t, ht, ?_⟩
      have hf : sqlEq t.task_title (some T1) = false := by
        simp [htitle, sqlEq, Ne.symm hne]
      simp [hf]
    · intro r hr hrt
      simp only [updateTasksByTitle, List.mem_map] at hr
      obtain ⟨a, _, har⟩ := hr
      by_cases ha : sqlEq a.task_title (some T1) = true
      · rw [if_pos ha] at har
        subst har
        simp [setColumns]
      · rw [if_neg ha] at har
        subst har
        exact absurd (by simp [hrt, sqlEq]) ha
  · cases hs : send (updatedTaskData page) with
    | none => exact ⟨"Failed to update task", by simp [handleSave, hs]⟩
    | some response =>
      cases hr : axiosResolves response.status with
      | true =>
        exact ⟨"Task successfully updated!",
          by rw [handleSave_resolved page taskId send response hs hr]⟩
      | false =>
        exact ⟨"Failed to update task",
          by rw [handleSave_rejected page taskId send response hs hr]⟩
  · intro send2 h2
    simp only [handleSave, h2]
  · intro hno
    have hr : axiosResolves
        (updateTaskmanagement run st (updatedTaskData page)).2.status = false := by
      rw [h404 hno]; rfl
    exact handleSave_rejected page taskId _ _ rfl hr
  · intro hex
    have hr : axiosResolves
        (updateTaskmanagement run st (updatedTaskData page)).2.status = true := by
      rw [h200 hex]; rfl
    exact handleSave_resolved page taskId _ _ rfl hr

/-! ## Worked examples -/

theorem demo_compare_rejects (p s : String) (h : s ≠ p) :
    demoEnv.compare s (demoEnv.hash p 10) = false := by
  simp only [demoEnv, beq_eq_false_iff_ne, ne_eq]
  intro he
  apply h
  have hd := congrArg String.data he
  simp only [String.data_append] at hd
  exact String.ext (List.append_cancel_right hd).symm

/-- Witness for C1: Bob signs up with Alice's email. -/
theorem signup_email_in_use_witness :
    signup demoEnv demoRun aliceStore
        { name := .str "Bob", email := .str "a@x.com", password := .str "hunter2" } =
      (aliceStore, { status := 400, message := "Email is already in use." }) :=
  signup_email_in_use demoEnv demoRun aliceStore
    { name := .str "Bob", email := .str "a@x.com", password := .str "hunter2" }
    (by decide) (by decide) (by decide) rfl
    ⟨{ id := 1, name := some "Alice", email := some "a@x.com", password := some "pw123#",
       created_at := 1000 }, by decide, rfl⟩

/-- Witness for C3: Alice signs up on the empty store. -/
theorem signup_success_witness :
    signup demoEnv demoRun Store.empty
        { name := .str "Alice", email := .str "a@x.com", password := .str "pw123" } =
      (aliceStore,
       { status := 201, message := "Sign up successful!",
         token := some { id := some 1, iat := 1000, exp := 4600, key := "secret" } }) :=
  (signup_success demoEnv demoRun Store.empty
    { name := .str "Alice", email := .str "a@x.com", password := .str "pw123" }
    "pw123#" { id := some 1, iat := 1000, exp := 4600, key := "secret" }
    (by decide) (by decide) (by decide) rfl rfl (by intro u hu; cases hu) rfl rfl).1

/-- Witness for C4: an unknown email on the empty store, and Alice's email
with a wrong password. -/
theorem login_failures_indistinguishable_witness :
    (login demoEnv demoRun Store.empty { email := .str "b@x.com", password := .str "pw123" }).2 =
    (login demoEnv demoRun aliceStore { email := .str "a@x.com", password := .str "wrong" }).2 :=
  (login_failures_indistinguishable demoEnv demoRun demoRun Store.empty aliceStore
    { email := .str "b@x.com", password := .str "pw123" }
    { email := .str "a@x.com", password := .str "wrong" }
    { id := 1, name := some "Alice", email := some "a@x.com", password := some "pw123#",
      created_at := 1000 } []
    (by decide) (by decide) (by decide) (by decide) rfl rfl (by decide) (by decide)
    rfl).2.2.1

/-- Witness for C5: signup('Alice','a@x.com','pw123'), then
login('a@x.com','pw123') and login('a@x.com','wrong'). -/
theorem signup_login_roundtrip_witness :
    aliceStore.signupusers = Store.empty.signupusers ++
      [{ id := 1, name := some "Alice", email := some "a@x.com",
         password := some "pw123#", created_at := 1000 }]
    ∧ (∃ tok, generateToken demoEnv demoRun (some 1) = .ok tok ∧
        login demoEnv demoRun aliceStore { email := .str "a@x.com", password := .str "pw123" } =
          (aliceStore, { status := 200, message := "Login successful!", token := some tok,
                         name := some (some "Alice") }))
    ∧ login demoEnv demoRun aliceStore { email := .str "a@x.com", password := .str "wrong" } =
        (aliceStore, { status := 401, message := "Invalid email or password." }) :=
  signup_login_roundtrip demoEnv demoRun demoRun demoRun Store.empty aliceStore
    { status := 201, message := "Sign up successful!",
      token := some { id := some 1, iat := 1000, exp := 4600, key := "secret" } }
    "Alice" "a@x.com" "pw123" "wrong"
    (by decide) (by decide) (by decide) (by decide) (by decide) (by decide)
    (demo_compare_rejects "pw123") (by intro u hu; cases hu) (by decide) rfl rfl rfl

/-- Witness for C7: no task of `sampleTasks` is titled 'Nope'. -/
theorem updateTaskmanagement_not_found_witness :
    updateTaskmanagement demoRun sampleTasks
        { taskname := .str "Nope", category := .str "Work", description := .null,
          priority := .str "High", deadline := .null, status := .str "Completed" } =
      (sampleTasks, { status := 404, message := "Task not found" }) :=
  updateTaskmanagement_not_found demoRun sampleTasks
    { taskname := .str "Nope", category := .str "Work", description := .null,
      priority := .str "High", deadline := .null, status := .str "Completed" }
    rfl (by decide)

/-- Witness for C8: two tasks of `sampleTasks` are titled 'Report'; the status
sent is outside 'Pending'/'Completed'. -/
theorem updateTaskmanagement_overwrites_witness :
    (updateTaskmanagement demoRun sampleTasks
        { taskname := .str "Report", category := .str "Misc", description := .str "later",
          priority := .str "Low", deadline := .null, status := .str "Archived" }).2.status = 200
    ∧ ∀ t ∈ (updateTaskmanagement demoRun sampleTasks
        { taskname := .str "Report", category := .str "Misc", description := .str "later",
          priority := .str "Low", deadline := .null, status := .str "Archived" }).1.taskmanagement,
        sqlEq t.task_title (some "Report") = true → t.status = some "Archived" :=
  have h := updateTaskmanagement_overwrites demoRun sampleTasks
    { taskname := .str "Report", category := .str "Misc", description := .str "later",
      priority := .str "Low", deadline := .null, status := .str "Archived" }
    rfl rfl
    ⟨{ id := 1, task_title := some "Report", category := some "Work", details := some "Q1",
       priority_level := some "High", due_date := some "2025-01-01",
       status := some "Pending", created_at := 10 }, by decide, by decide⟩
  ⟨h.1, fun t ht hm => (h.2.2.1 t ht hm).2.2.2.2⟩

/-- Witness for C10: `sampleTasks` has unique ids; row 2 is deleted. -/
theorem deleteTaskmanagement_spec_witness :
    deleteTaskmanagement demoRun sampleTasks 2 =
      ({ sampleTasks with taskmanagement := List.erase sampleTasks.taskmanagement sampleCall },
       { status := 200, message := "Task deleted successfully.",
         deletedTask := some sampleCall }) :=
  ((deleteTaskmanagement_spec demoRun sampleTasks 2 rfl (by decide)).2
    sampleCall (by decide) rfl).1

/-- Witness for C11: statuses Pending, Pending, Completed give 3, 2, 1. -/
theorem getCounts_spec_witness :
    getCounts demoEnv demoRun threeTasks =
      (threeTasks, { status := 200, message := "Task counts fetched successfully.",
                     token := some { id := none, iat := 1000, exp := 4600, key := "secret" },
                     counts := some { total_count := 3, pending_count := 2,
                                      completed_count := 1 } }) :=
  (getCounts_spec demoEnv demoRun threeTasks
    { id := none, iat := 1000, exp := 4600, key := "secret" } rfl rfl).1

/-- Witness for C15: Alice logs in at time 1000; her token is accepted at 4599
and refused at 4600. -/
theorem login_token_accepted_witness :
    authenticateToken demoCodec demoEnv 4599 (some "Bearer alice.jwt") =
      .next { id := some 1, iat := 1000, exp := 4600 }
    ∧ authenticateToken demoCodec demoEnv 4600 (some "Bearer alice.jwt") = .sendStatus 403 := by
  obtain ⟨u, rest, hsel, hid, h⟩ := login_token_accepted demoCodec demoEnv demoRun aliceStore
    aliceStore { email := .str "a@x.com", password := .str "pw123" }
    { status := 200, message := "Login successful!", token := some aliceToken,
      name := some (some "Alice") }
    aliceToken (by decide) rfl rfl (by decide) (by decide) (by decide)
  have hu : some u.id = some 1 := hid.symm
  have h1 := (h 4599).1 (by decide)
  have h2 := (h 4600).2 (by decide)
  rw [hu] at h1
  exact ⟨h1, h2⟩

/-- Witness for C16: a signup without password and a login without email, with
no secret configured and the first query set to raise. -/
theorem missing_fields_400_witness :
    signup noSecretEnv (failRun 0) aliceStore
        { name := .str "Bob", email := .str "b@x.com", password := .str "" } =
      (aliceStore, { status := 400, message := "Please fill in all fields." })
    ∧ login noSecretEnv (failRun 0) aliceStore { email := .undefined, password := .str "pw" } =
      (aliceStore, { status := 400, message := "Please provide email and password." }) :=
  ⟨(missing_fields_400 noSecretEnv (failRun 0) aliceStore
      { name := .str "Bob", email := .str "b@x.com", password := .str "" }
      { email := .undefined, password := .str "pw" }).1 (Or.inr (Or.inr (by decide))),
   (missing_fields_400 noSecretEnv (failRun 0) aliceStore
      { name := .str "Bob", email := .str "b@x.com", password := .str "" }
      { email := .undefined, password := .str "pw" }).2 (Or.inl (by decide))⟩

/-- Witness for C17: 'Report' is created twice on the empty store. -/
theorem taskmanagement_inserts_one_witness :
    (taskmanagement demoEnv demoRun
        (taskmanagement demoEnv demoRun Store.empty reportBody).1 reportBody).1.taskmanagement =
      [{ id := 1, task_title := some "Report", category := some "Work", details := some "Q1",
         priority_level := some "High", due_date := some "2025-01-01",
         status := some "Pending", created_at := 1000 },
       { id := 2, task_title := some "Report", category := some "Work", details := some "Q1",
         priority_level := some "High", due_date := some "2025-01-01",
         status := some "Pending", created_at := 1000 }] :=
  (taskmanagement_inserts_one demoEnv demoRun demoRun Store.empty reportBody reportBody
    { id := none, iat := 1000, exp := 4600, key := "secret" }
    { id := none, iat := 1000, exp := 4600, key := "secret" } rfl rfl rfl rfl rfl).2

/-- Witness for C18: listing `sampleTasks`. -/
theorem getTaskmanagement_lists_all_witness :
    getTaskmanagement demoEnv demoRun sampleTasks =
      (sampleTasks, { status := 200, message := "Tasks fetched successfully.",
                      token := some { id := none, iat := 1000, exp := 4600, key := "secret" },
                      tasks := some sampleTasks.taskmanagement }) :=
  (getTaskmanagement_lists_all demoEnv demoRun demoRun sampleTasks
    { id := none, iat := 1000, exp := 4600, key := "secret" }
    { id := none, iat := 1000, exp := 4600, key := "secret" } rfl rfl rfl rfl).1

/-- Witness for C19: without `JWT_SECRET`, Alice's signup on the empty store
answers 500 after her row was inserted; and an update of 'Report' whose UPDATE
statement raises answers 500 with the table untouched. -/
theorem failures_are_500_witness :
    signup noSecretEnv demoRun Store.empty
        { name := .str "Alice", email := .str "a@x.com", password := .str "pw123" } =
      (aliceStore, { status := 500, message := "Internal server error." })
    ∧ updateTaskmanagement (failRun 1) sampleTasks
        { taskname := .str "Report", category := .null, description := .null,
          priority := .null, deadline := .null, status := .str "Completed" } =
      (sampleTasks, { status := 500, message := "An error occurred while updating the task." }) :=
  have h := failures_are_500 noSecretEnv demoRun Store.empty
    { name := .str "Alice", email := .str "a@x.com", password := .str "pw123" }
    { email := .null, password := .null } reportBody
    { taskname := .null, category := .null, description := .null,
      priority := .null, deadline := .null, status := .null } 0
  have g := failures_are_500 demoEnv (failRun 1) sampleTasks
    { name := .null, email := .null, password := .null }
    { email := .null, password := .null } reportBody
    { taskname := .str "Report", category := .null, description := .null,
      priority := .null, deadline := .null, status := .str "Completed" } 0
  ⟨((((h.1 ⟨by decide, by decide, by decide⟩).2 rfl rfl).2 "pw123#" rfl).2 rfl rfl),
   g.2.2.2.2.2.2.2.1 rfl (by decide) rfl⟩

/-- Witness for C21: two rows of `sampleTasks` are titled 'Report'; the
response carries the first. -/
theorem updateTaskmanagement_returns_first_witness :
    (updateTaskmanagement demoRun sampleTasks
        { taskname := .str "Report", category := .str "Misc", description := .str "later",
          priority := .str "Low", deadline := .null, status := .str "Archived" }).2 =
      { status := 200, message := "Task updated successfully.",
        updatedTask := some
          { id := 1, task_title := some "Report", category := some "Misc",
            details := some "later", priority_level := some "Low", due_date := none,
            status := some "Archived", created_at := 10 } } :=
  (updateTaskmanagement_returns_first demoRun sampleTasks
    { taskname := .str "Report", category := .str "Misc", description := .str "later",
      priority := .str "Low", deadline := .null, status := .str "Archived" }
    { id := 1, task_title := some "Report", category := some "Work", details := some "Q1",
      priority_level := some "High", due_date := some "2025-01-01",
      status := some "Pending", created_at := 10 }
    [{ id := 3, task_title := some "Report", category := some "Club", details := some "Q2",
       priority_level := some "Low", due_date := some "2025-02-01",
       status := some "Completed", created_at := 30 }]
    rfl rfl (by decide)).1

/-- Witness for C22: searching 'HOME' in `samplePage` keeps the row of
category 'Home'. -/
theorem filteredTasks_search_witness :
    ∃ l, filteredTasks asciiLower { samplePage with search := "HOME" } = .ok l
      ∧ l.Sublist samplePage.tasks
      ∧ (∀ t ∈ samplePage.tasks, t ∈ l ↔
          ∃ a b, t.task_title = some a ∧ t.category = some b ∧
            ((∃ pre post, (asciiLower a).data = pre ++ (asciiLower "HOME").data ++ post)
             ∨ (∃ pre post, (asciiLower b).data = pre ++ (asciiLower "HOME").data ++ post)))
      ∧ (("HOME" : String) = "" → l = samplePage.tasks) :=
  filteredTasks_search asciiLower { samplePage with search := "HOME" } rfl
    (by
      intro t ht
      have h3 : t ∈ [ClientTask.ofRow
          { id := 1, task_title := some "Report", category := some "Work", details := some "Q1",
            priority_level := some "High", due_date := some "2025-01-01",
            status := some "Pending", created_at := 10 },
          ClientTask.ofRow sampleCall,
          ClientTask.ofRow
          { id := 3, task_title := some "Report", category := some "Club", details := some "Q2",
            priority_level := some "Low", due_date := some "2025-02-01",
            status := some "Completed", created_at := 30 }] := ht
      simp only [List.mem_cons, List.mem_singleton, List.not_mem_nil, or_false] at h3
      rcases h3 with h | h | h <;> rw [h] <;> exact ⟨⟨_, rfl⟩, ⟨_, rfl⟩⟩)

/-- Witness for C23: the two password cells differ. -/
theorem handleSignUp_checks_confirmation_witness :
    handleSignUp { name := "Alice", email := "a@x.com", password := "pw123",
                   confirmPassword := "pw124" }
        (fun b => some (signup demoEnv demoRun Store.empty b).2) =
      [.preventDefault, .alert "Passwords do not match."] :=
  (handleSignUp_checks_confirmation
    { name := "Alice", email := "a@x.com", password := "pw123", confirmPassword := "pw124" }
    (fun b => some (signup demoEnv demoRun Store.empty b).2)).1 (by decide)

/-- Witness for C24 as amended: a create with no field at all on the empty
store. -/
theorem presence_checked_on_credentials_only_witness :
    (taskmanagement demoEnv demoRun Store.empty emptyBody).2.status = 200
    ∧ (taskmanagement demoEnv demoRun Store.empty emptyBody).1.taskmanagement =
        [{ id := 1, task_title := none, category := none, details := none,
           priority_level := none, due_date := none, status := some "Pending",
           created_at := 1000 }] :=
  (presence_checked_on_credentials_only demoEnv demoRun Store.empty
    { name := .null, email := .null, password := .null }
    { email := .null, password := .null } emptyBody).2.2.2
    { id := none, iat := 1000, exp := 4600, key := "secret" } rfl rfl

/-- Witness for C27: in `sampleTasks` the title of row 1 is edited from
'Report' to 'Call' and saved: the PUT carries taskname 'Call', the titles in
the table stay Report, Call, Report, and so do the local ones. -/
theorem edited_title_never_renames_witness :
    (updateTaskmanagement demoRun sampleTasks
        (updatedTaskData { editingPage with taskTitle := some "Call" })).1.taskmanagement.map
          (fun r => r.task_title) = [some "Report", some "Call", some "Report"]
    ∧ handleSave { editingPage with taskTitle := some "Call" } 1
        (fun body => some (updateTaskmanagement demoRun sampleTasks body).2) =
      ({ editingPage with
          taskTitle := some "Call",
          tasks := editingPage.tasks.map
            (fun task => if task.id = 1
              then spreadUpdate task { editingPage with taskTitle := some "Call" } else task),
          editingTask := none },
       [.putUpdate
          { taskname := .str "Call", category := .str "Work", description := .str "later",
            priority := .str "Low", deadline := .str "2025-01-01", status := .str "Pending" },
        .alert "Task successfully updated!"]) :=
  have h := edited_title_never_renames demoRun sampleTasks
    { editingPage with taskTitle := some "Call" } 1 sampleSend
    { id := 1, task_title := some "Report", category := some "Work", details := some "Q1",
      priority_level := some "High", due_date := some "2025-01-01",
      status := some "Pending", created_at := 10 }
    "Report" "Call" rfl rfl (by decide) rfl rfl (by decide)
  ⟨h.2.2.2.1, h.2.2.2.2.2.2.2.2 ⟨sampleCall, by decide, rfl⟩⟩

/-- Witness for C28: the scheme 'Basic' in place of 'Bearer'. -/
theorem authenticateToken_scheme_unchecked_witness :
    authenticateToken demoCodec demoEnv 2000 (some ("Basic" ++ " " ++ "alice.jwt")) =
      authenticateToken demoCodec demoEnv 2000 (some ("Bearer" ++ " " ++ "alice.jwt"))
    ∧ authenticateToken demoCodec demoEnv 2000 (some "Basic") = .sendStatus 401
    ∧ authenticateToken demoCodec demoEnv 2000 (some ("Basic" ++ " " ++ (" " ++ "alice.jwt"))) =
        .sendStatus 401 :=
  authenticateToken_scheme_unchecked demoCodec demoEnv 2000 "Basic" "alice.jwt" (by decide)


end TaskMgmt
